import Mathlib

/-!
Verification of the persona management module (`public/scripts/personas.js`).

The module keeps a persona store (avatar id → display name), a descriptor
store (avatar id → description record with optional character/group
connections), a global default persona, and a per-chat persona lock.  The
JavaScript stores are plain objects; we embed them as association lists
(`List (String × α)`), which preserves both key lookup and the insertion
order that `Object.entries` iteration depends on.  JavaScript string
truthiness (`''`/`null`/`undefined` are falsy) is made explicit via
`jsTruthy`.  Fallible operations (`throw`) return `Except String _`.
-/

/-- JS truthiness of a possibly-absent string value: `undefined`/`null`
(`none`) and the empty string are falsy. -/
def jsTruthy : Option String → Bool
  | some s => !s.isEmpty
  | none => false

/-- Lookup in an association list, first match wins (JS object property
read, given that JS object keys are unique). -/
def lookupKey {α : Type} : List (String × α) → String → Option α
  | [], _ => none
  | (k, v) :: rest, key => if k = key then some v else lookupKey rest key

/-- `key in obj` for a JS object embedded as an association list. -/
def hasKey {α : Type} (l : List (String × α)) (key : String) : Bool :=
  (lookupKey l key).isSome

/-- JS property write `obj[key] = v`: update in place when the key is
present, otherwise append (JS insertion order). -/
def setKey {α : Type} (l : List (String × α)) (key : String) (v : α) : List (String × α) :=
  if (lookupKey l key).isSome then
    l.map (fun kv => if kv.1 = key then (key, v) else kv)
  else l ++ [(key, v)]

/-- JS `delete obj[key]`. -/
def removeKey {α : Type} (l : List (String × α)) (key : String) : List (String × α) :=
  l.filter (fun kv => kv.1 ≠ key)

/-- A connection between a persona and a character or group entity
(`PersonaConnection` typedef in personas.js): `type` is `'character'` or
`'group'`, `id` the character key (avatar url) or group id. -/
structure PersonaConnection where
  type : String
  id : String
deriving DecidableEq, Repr

/-- A persona descriptor (`power_user.persona_descriptions[avatarId]`).
Every constructor in personas.js sets the five scalar fields; the
`connections` array is optional (older descriptors lack it, mirrored by
`none`). -/
structure PersonaDescription where
  description : String
  position : Nat
  depth : Nat
  role : Nat
  lorebook : String
  connections : Option (List PersonaConnection)
deriving DecidableEq, Repr

/-- Modelled from the spec: the prompt-position enum
(`persona_description_positions.IN_PROMPT` is imported from
power-user.js, which is outside the sources); only the in-prompt constant
is needed here, its numeric value is irrelevant to the claims. -/
def IN_PROMPT : Nat := 0

/-- `DEFAULT_DEPTH` constant of personas.js. -/
def DEFAULT_DEPTH : Nat := 2

/-- `DEFAULT_ROLE` constant of personas.js. -/
def DEFAULT_ROLE : Nat := 0

/-- The state the persona module reads and mutates: the two stores and the
default persona from `power_user`, the chat lock from
`chat_metadata['persona']`, the active avatar `user_avatar`, the display
name `name1`, the avatar files known to the server (`/api/avatars/get`),
the `persona_allow_multi_connections` / `persona_auto_lock` settings, and
the current chat context (`selected_group`, `characters[this_chid]?.avatar`). -/
structure PersonaState where
  personas : List (String × String)
  persona_descriptions : List (String × PersonaDescription)
  default_persona : Option String
  chat_persona : Option String
  user_avatar : String
  name1 : String
  avatars : List String
  persona_allow_multi_connections : Bool
  persona_auto_lock : Bool
  selected_group : Option String
  character_avatar : Option String
deriving DecidableEq, Repr

/-- `getCurrentConnectionObj`: group connection when a group chat is open,
else character connection when the current character has an avatar, else
`null`. -/
def getCurrentConnectionObj (s : PersonaState) : Option PersonaConnection :=
  if jsTruthy s.selected_group then some ⟨"group", s.selected_group.getD ""⟩
  else if jsTruthy s.character_avatar then some ⟨"character", s.character_avatar.getD ""⟩
  else none

/-- `isPersonaConnectionLocked`: whether a connection targets the
currently open character (no group selected) or the currently open group. -/
def isPersonaConnectionLocked (s : PersonaState) (c : PersonaConnection) : Bool :=
  (!jsTruthy s.selected_group && c.type == "character" && some c.id == s.character_avatar)
  || (jsTruthy s.selected_group && c.type == "group" && some c.id == s.selected_group)

/-- `getConnectedPersonas` (without explicit argument): the character key
defaults to `selected_group || characters[this_chid]?.avatar`; a persona
counts as connected when one of its connections has `type === 'character'`
and the matching id (note: the source never matches `type === 'group'`).
The result keeps store order, which the caller relies on for picking the
first persona. -/
def getConnectedPersonas (s : PersonaState) : List String :=
  let characterKey : Option String :=
    if jsTruthy s.selected_group then s.selected_group else s.character_avatar
  (s.persona_descriptions.filter (fun kv =>
    match kv.2.connections with
    | some conns => conns.any (fun c => c.type == "character" && some c.id == characterKey)
    | none => false)).map (fun kv => kv.1)

/-- `isPersonaLocked`: lock-state query for the three lock scopes; any
other argument throws `Unknown persona lock type`. -/
def isPersonaLocked (lockType : String) (s : PersonaState) : Except String Bool :=
  if lockType = "default" then .ok (s.default_persona == some s.user_avatar)
  else if lockType = "chat" then .ok (s.chat_persona == some s.user_avatar)
  else if lockType = "character" then
    .ok (match lookupKey s.persona_descriptions s.user_avatar with
      | some d => (d.connections.getD []).any (isPersonaConnectionLocked s)
      | none => false)
  else .error ("Unknown persona lock type: " ++ lockType)

/-- `toggleDefaultPersona` (quiet path, as invoked from lock/unlock):
no-op for a falsy avatar id or an avatar with no persona name bound;
otherwise removes the default when the avatar already is the default, else
sets it. -/
def toggleDefaultPersona (avatarId : String) (s : PersonaState) : PersonaState :=
  if avatarId = "" then s
  else match lookupKey s.personas avatarId with
    | none => s
    | some _ =>
      if some avatarId == s.default_persona then { s with default_persona := none }
      else { s with default_persona := some avatarId }

/-- The descriptor created by `lockPersona` and `selectCurrentPersona`
for a previously unbound avatar: empty description, in-prompt position,
default depth and role, no lorebook, empty connection list. -/
def createdPersonaDescriptor : PersonaDescription :=
  { description := "", position := IN_PROMPT, depth := DEFAULT_DEPTH,
    role := DEFAULT_ROLE, lorebook := "", connections := some [] }

/-- First block of `lockPersona`: if `user_avatar` is not a persona yet,
create one named after the current user name with a default descriptor. -/
def ensurePersonaExists (s : PersonaState) : PersonaState :=
  if hasKey s.personas s.user_avatar then s
  else { s with
    personas := setKey s.personas s.user_avatar s.name1,
    persona_descriptions := setKey s.persona_descriptions s.user_avatar createdPersonaDescriptor }

/-- Body of the exclusivity loop of `lockPersona`: remove the new
connection from another persona's descriptor.  When the descriptor has no
`connections` array the source still assigns the (empty) filtered array,
because `0 !== undefined`. -/
def stripConnectionValue (nc : PersonaConnection) (d : PersonaDescription) : PersonaDescription :=
  let filtered := (d.connections.getD []).filter (fun c => !(c.type == nc.type && c.id == nc.id))
  match d.connections with
  | none => { d with connections := some filtered }
  | some conns =>
    if filtered.length ≠ conns.length then { d with connections := some filtered } else d

/-- The exclusivity loop of `lockPersona` over
`Object.entries(power_user.persona_descriptions)`: every persona except
the current one loses the new connection. -/
def stripConnectionFromOthers (ua : String) (nc : PersonaConnection)
    (l : List (String × PersonaDescription)) : List (String × PersonaDescription) :=
  l.map (fun kv => (kv.1, if kv.1 = ua then kv.2 else stripConnectionValue nc kv.2))

/-- The `'character'` case of `lockPersona` (after the persona-creation
block): it reads `persona_descriptions[user_avatar].connections`
unconditionally, which is a TypeError when the persona exists without a
descriptor; then, when the current chat yields a connection object with a
truthy id, it replaces any connection to the current entity by the new one
and — unless multi connections are allowed — strips the new connection
from every other persona. -/
def lockPersonaCharacter (s : PersonaState) : Except String PersonaState :=
  match lookupKey s.persona_descriptions s.user_avatar with
  | none => .error "TypeError: cannot read connections of undefined"
  | some d =>
    let newConnection := getCurrentConnectionObj s
    let connections := (d.connections.getD []).filter (fun c => !isPersonaConnectionLocked s c)
    match newConnection with
    | some nc =>
      if nc.id = "" then .ok s
      else
        let updated := setKey s.persona_descriptions s.user_avatar
          ({ d with connections := some (connections ++ [nc]) })
        let s := { s with persona_descriptions := updated }
        if !s.persona_allow_multi_connections then
          .ok { s with persona_descriptions := stripConnectionFromOthers s.user_avatar nc s.persona_descriptions }
        else .ok s
    | none => .ok s

/-- `lockPersona`: ensures the persona exists, then locks by scope
(`'default'` toggles the default persona, `'chat'` writes the chat lock,
`'character'` is `lockPersonaCharacter`).  Unknown lock types throw. -/
def lockPersona (lockType : String) (s : PersonaState) : Except String PersonaState :=
  let s := ensurePersonaExists s
  if lockType = "default" then .ok (toggleDefaultPersona s.user_avatar s)
  else if lockType = "chat" then .ok { s with chat_persona := some s.user_avatar }
  else if lockType = "character" then lockPersonaCharacter s
  else .error ("Unknown persona lock type: " ++ lockType)

/-- `unlockPersona`: `'default'` toggles the default persona, `'chat'`
deletes the chat lock when present, `'character'` filters the connections
to the current entity out of the current persona's descriptor (when a
connections array exists).  Unknown lock types throw. -/
def unlockPersona (lockType : String) (s : PersonaState) : Except String PersonaState :=
  if lockType = "default" then .ok (toggleDefaultPersona s.user_avatar s)
  else if lockType = "chat" then
    .ok (if jsTruthy s.chat_persona then { s with chat_persona := none } else s)
  else if lockType = "character" then
    .ok (match lookupKey s.persona_descriptions s.user_avatar with
      | some d =>
        match d.connections with
        | some conns =>
          let kept := conns.filter (fun c => !isPersonaConnectionLocked s c)
          { s with persona_descriptions := setKey s.persona_descriptions s.user_avatar ({ d with connections := some kept }) }
        | none => s
      | none => s)
  else .error ("Unknown persona lock type: " ++ lockType)

/-- `selectCurrentPersona` (state effects only; rendering and token
counting are UI).  When the active avatar has a persona name bound: sync
the display name to it (`setUserName` from script.js is modelled as the
`name1` update it performs), create a default descriptor if none exists,
and — when `persona_auto_lock` is on and the chat is locked to a different
persona — lock the chat to the active avatar.  The second component
reports whether the chat-metadata persistence routine
(`saveMetadataDebounced`) was invoked. -/
def selectCurrentPersonaM (s : PersonaState) : PersonaState × Bool :=
  match lookupKey s.personas s.user_avatar with
  | some n =>
    if n = "" then (s, false)
    else
      let shouldAutoLock := s.persona_auto_lock && s.chat_persona != some s.user_avatar
      let s := if n = s.name1 then s else { s with name1 := n }
      let s := if hasKey s.persona_descriptions s.user_avatar then s
        else { s with persona_descriptions := setKey s.persona_descriptions s.user_avatar createdPersonaDescriptor }
      if shouldAutoLock then ({ s with chat_persona := some s.user_avatar }, true) else (s, false)
  | none => (s, false)

/-- `setUserAvatar` with a string argument: set the active avatar, then
`selectCurrentPersona`.  Reports whether chat metadata was saved. -/
def setUserAvatarModel (img : String) (s : PersonaState) : PersonaState × Bool :=
  selectCurrentPersonaM { s with user_avatar := img }

/-- The `Remove All Connections` button of `askForPersonaSelection`:
filter the targeted connection out of every persona's connections array
(descriptors without the array are skipped). -/
def removeAllConnections (target : Option PersonaConnection) (s : PersonaState) : PersonaState :=
  match target with
  | none => s
  | some tc =>
    { s with persona_descriptions := s.persona_descriptions.map (fun kv =>
        (kv.1, match kv.2.connections with
          | some conns =>
            { kv.2 with connections := some (conns.filter (fun c => !(tc.type == c.type && tc.id == c.id))) }
          | none => kv.2)) }

/-- Output of the chat-lock step of `loadPersonaForCurrentChat`. -/
structure Step1Out where
  state : PersonaState
  chatPersona : String
  connectType : Option String
  savedSettings : Bool
deriving DecidableEq, Repr

/-- Chat-lock step of `loadPersonaForCurrentChat` (its first `if`): a
truthy chat lock is used when its avatar is in the fetched avatar list;
otherwise the lock is deleted and — as in the source — only
`saveSettingsDebounced` is invoked for the deletion. -/
def resolveChatLockStep (s : PersonaState) : Step1Out :=
  if jsTruthy s.chat_persona then
    if s.avatars.contains (s.chat_persona.getD "") then
      ⟨s, s.chat_persona.getD "", some "chat", false⟩
    else ⟨{ s with chat_persona := none }, "", none, true⟩
  else ⟨s, "", none, false⟩

/-- The persona picked by the connection step, as a function of the
connected list: the single connected persona; with several and multi
connections disallowed, the first; with several and multi connections
allowed, the user's popup choice (an index into the list; cancelling, an
out-of-range index, or the remove-all button yield no pick). -/
def connectionPick (connected : List String) (allowMulti : Bool)
    (askPick : Option Nat) (askRemoveAll : Bool) : String :=
  if connected.isEmpty then ""
  else if connected.length = 1 then connected.headD ""
  else if !allowMulti then connected.headD ""
  else if askRemoveAll then ""
  else (askPick.bind (fun i => connected.get? i)).getD ""

/-- Output of the connection step of `loadPersonaForCurrentChat`. -/
structure Step2Out where
  state : PersonaState
  chatPersona : String
  savedSettings : Bool
  warnedMultiple : Bool
  prompted : Bool
deriving DecidableEq, Repr

/-- Connection step of `loadPersonaForCurrentChat` (its second `if`):
exactly one connected persona is taken; several with multi connections
disallowed warn (`console.warn`) and take the first; several with multi
connections allowed prompt the user (`askForPersonaSelection`), whose
remove-all button also mutates the connection registry and saves the
settings. -/
def resolveConnectionStep (s : PersonaState) (askPick : Option Nat) (askRemoveAll : Bool) : Step2Out :=
  let connected := getConnectedPersonas s
  if connected.isEmpty then ⟨s, "", false, false, false⟩
  else if connected.length = 1 then ⟨s, connected.headD "", false, false, false⟩
  else if !s.persona_allow_multi_connections then ⟨s, connected.headD "", false, true, false⟩
  else
    let removing := askRemoveAll && (getCurrentConnectionObj s).isSome
    let s2 := if removing then removeAllConnections (getCurrentConnectionObj s) s else s
    let pick := if askRemoveAll then "" else (askPick.bind (fun i => connected.get? i)).getD ""
    ⟨s2, pick, removing, false, true⟩

/-- Outcome of `loadPersonaForCurrentChat`: the final state, the selected
persona (`''` when none), the connection type that selected it, whether
`saveSettingsDebounced` resp. the chat-metadata save routines were invoked
anywhere in the run, and whether the multiple-connections warning or the
disambiguation prompt occurred. -/
structure ResolveResult where
  state : PersonaState
  chatPersona : String
  connectType : Option String
  savedSettings : Bool
  savedMetadata : Bool
  warnedMultiple : Bool
  prompted : Bool
deriving DecidableEq, Repr

/-- `loadPersonaForCurrentChat`: chat-lock step, then — if nothing was
selected — the connection step, then the default persona (note the source
does not check that the default still exists before selecting it); then
the two late dangling checks (the chat-lock re-check deletes without any
save, the dangling default is nulled and the settings saved, but the
already-computed selection is kept); finally `setUserAvatar` on the
selection, when there is one. -/
def loadPersonaForCurrentChat (s : PersonaState) (askPick : Option Nat) (askRemoveAll : Bool) :
    ResolveResult :=
  let userAvatars := s.avatars
  let st1 := resolveChatLockStep s
  let runStep2 := st1.chatPersona = ""
  let st2 := resolveConnectionStep st1.state askPick askRemoveAll
  let sAfter2 := if runStep2 then st2.state else st1.state
  let cpAfter2 := if runStep2 then st2.chatPersona else st1.chatPersona
  let ctAfter2 := if runStep2 then (if st2.chatPersona = "" then st1.connectType else some "character")
    else st1.connectType
  let useDefault := cpAfter2 = "" && jsTruthy sAfter2.default_persona
  let cp3 := if useDefault then sAfter2.default_persona.getD "" else cpAfter2
  let ct3 := if useDefault then some "default" else ctAfter2
  let s4 := if jsTruthy sAfter2.chat_persona && !userAvatars.contains (sAfter2.chat_persona.getD "")
    then { sAfter2 with chat_persona := none } else sAfter2
  let danglingDefault := jsTruthy s4.default_persona && !userAvatars.contains (s4.default_persona.getD "")
  let s5 := if danglingDefault then { s4 with default_persona := none } else s4
  let sel := if cp3 = "" then (s5, false) else setUserAvatarModel cp3 s5
  { state := sel.1,
    chatPersona := cp3,
    connectType := ct3,
    savedSettings := st1.savedSettings || (runStep2 && st2.savedSettings) || danglingDefault || !(cp3 == ""),
    savedMetadata := sel.2,
    warnedMultiple := runStep2 && st2.warnedMultiple,
    prompted := runStep2 && st2.prompted }

/-- Outcome of `deleteUserAvatar`: the final state (after the re-resolve
it triggers) and the two user-visible deletion warnings. -/
structure DeleteResult where
  state : PersonaState
  warnedDefaultDeleted : Bool
  warnedLockDeleted : Bool
deriving DecidableEq, Repr

/-- `deleteUserAvatar`: after the user confirms and the server delete
succeeds, removes the avatar's persona name and descriptor (and the
server-side avatar file), clears the default persona with a warning if it
pointed at the avatar, clears the chat lock with a warning (and saves the
chat metadata) if it pointed at the avatar, and re-runs
`loadPersonaForCurrentChat`. -/
def deleteUserAvatar (confirm : Bool) (requestOk : Bool) (askPick : Option Nat)
    (askRemoveAll : Bool) (s : PersonaState) : DeleteResult :=
  if s.user_avatar = "" ∨ confirm = false ∨ requestOk = false then ⟨s, false, false⟩
  else
    let avatarId := s.user_avatar
    let s := { s with
      personas := removeKey s.personas avatarId,
      persona_descriptions := removeKey s.persona_descriptions avatarId,
      avatars := s.avatars.erase avatarId }
    let wasDefault := s.default_persona == some avatarId
    let s := if wasDefault then { s with default_persona := none } else s
    let wasLocked := s.chat_persona == some avatarId
    let s := if wasLocked then { s with chat_persona := none } else s
    ⟨(loadPersonaForCurrentChat s askPick askRemoveAll).state, wasDefault, wasLocked⟩

/-- `personaName.replace(/[^a-zA-Z0-9]/g, '')`. -/
def stripNonAlphanumeric (s : String) : String :=
  String.mk (s.toList.filter (fun c => c.isAlpha || c.isDigit))

/-- The avatar id `duplicatePersona` generates:
`Date.now() + '-' + <name stripped to ASCII alphanumerics> + '.png'`. -/
def mkDuplicateAvatarId (now : Nat) (n : String) : String :=
  toString now ++ "-" ++ stripNonAlphanumeric n ++ ".png"

/-- `duplicatePersona`: bails out when the avatar has no (truthy) persona
name or the user does not confirm; otherwise registers the generated
avatar id with the same name and a descriptor copying description,
position, depth, role and lorebook (absent descriptor fields fall back to
the defaults) — the new descriptor object carries no `connections`
property — and uploads a copy of the avatar image. -/
def duplicatePersona (now : Nat) (confirm : Bool) (avatarId : String) (s : PersonaState) :
    PersonaState :=
  match lookupKey s.personas avatarId with
  | none => s
  | some n =>
    if n = "" then s
    else if confirm = false then s
    else
      let newAvatarId := mkDuplicateAvatarId now n
      let d := lookupKey s.persona_descriptions avatarId
      let newDescriptor : PersonaDescription :=
        { description := (d.map (fun x => x.description)).getD "",
          position := (d.map (fun x => x.position)).getD IN_PROMPT,
          depth := (d.map (fun x => x.depth)).getD DEFAULT_DEPTH,
          role := (d.map (fun x => x.role)).getD DEFAULT_ROLE,
          lorebook := (d.map (fun x => x.lorebook)).getD "",
          connections := none }
      { s with
        personas := setKey s.personas newAvatarId n,
        persona_descriptions := setKey s.persona_descriptions newAvatarId newDescriptor,
        avatars := if s.avatars.contains newAvatarId then s.avatars else s.avatars ++ [newAvatarId] }

/-- A parsed persona backup file (`{personas, persona_descriptions,
default_persona}`), after `onPersonasRestoreInput`'s format validation. -/
structure PersonaBackup where
  personas : List (String × String)
  persona_descriptions : List (String × PersonaDescription)
  default_persona : Option String
deriving DecidableEq, Repr

/-- The per-key warnings pushed by `onPersonasRestoreInput`. -/
inductive RestoreWarning
  | personaExists (key : String)
  | avatarMissing (key : String)
  | descriptionExists (key : String)
  | personaMissing (key : String)
  | defaultMissing (key : String)
deriving DecidableEq, Repr

/-- Persona-merge loop of `onPersonasRestoreInput`: existing keys are
skipped with a warning; added keys whose avatar image is missing from the
(snapshot) avatar list get a warning and a default-avatar upload. -/
def restorePersonasLoop (avatarsList : List String) :
    List (String × String) → PersonaState → List RestoreWarning → PersonaState × List RestoreWarning
  | [], s, ws => (s, ws)
  | (k, v) :: rest, s, ws =>
    if hasKey s.personas k then
      restorePersonasLoop avatarsList rest s (ws ++ [.personaExists k])
    else
      let s := { s with personas := setKey s.personas k v }
      if avatarsList.contains k then restorePersonasLoop avatarsList rest s ws
      else restorePersonasLoop avatarsList rest { s with avatars := s.avatars ++ [k] }
        (ws ++ [.avatarMissing k])

/-- Description-merge loop of `onPersonasRestoreInput`: existing keys are
skipped with a warning, keys whose persona name is falsy are skipped with
a warning, the rest are added. -/
def restoreDescriptionsLoop :
    List (String × PersonaDescription) → PersonaState → List RestoreWarning →
    PersonaState × List RestoreWarning
  | [], s, ws => (s, ws)
  | (k, v) :: rest, s, ws =>
    if hasKey s.persona_descriptions k then
      restoreDescriptionsLoop rest s (ws ++ [.descriptionExists k])
    else if !jsTruthy (lookupKey s.personas k) then
      restoreDescriptionsLoop rest s (ws ++ [.personaMissing k])
    else
      restoreDescriptionsLoop rest
        { s with persona_descriptions := setKey s.persona_descriptions k v } ws

/-- Default-persona step of `onPersonasRestoreInput`: a truthy backup
default is applied when its key exists in the (merged) persona store,
otherwise warned about. -/
def restoreDefault (b : PersonaBackup) (s : PersonaState) (ws : List RestoreWarning) :
    PersonaState × List RestoreWarning :=
  match b.default_persona with
  | some d =>
    if d = "" then (s, ws)
    else if hasKey s.personas d then ({ s with default_persona := some d }, ws)
    else (s, ws ++ [.defaultMissing d])
  | none => (s, ws)

/-- `onPersonasRestoreInput` after validation: merge personas, then
descriptions, then the default, returning the new state and the warning
report. -/
def onPersonasRestore (b : PersonaBackup) (s : PersonaState) : PersonaState × List RestoreWarning :=
  let avatarsList := s.avatars
  let r1 := restorePersonasLoop avatarsList b.personas s []
  let r2 := restoreDescriptionsLoop b.persona_descriptions r1.1 r1.2
  restoreDefault b r2.1 r2.2

/-- Modelled from the spec (amended claim C1): the selection rule as a
plain precedence cascade — chat lock if its avatar still exists; else the
connection rule; else the default persona whenever one is set, existing or
not.  To be compared with `loadPersonaForCurrentChat`. -/
def resolveSelectionSpec (s : PersonaState) (askPick : Option Nat) (askRemoveAll : Bool) :
    String × Option String :=
  if jsTruthy s.chat_persona && s.avatars.contains (s.chat_persona.getD "") then
    (s.chat_persona.getD "", some "chat")
  else
    let pick := connectionPick (getConnectedPersonas s) s.persona_allow_multi_connections
      askPick askRemoveAll
    if pick ≠ "" then (pick, some "character")
    else if jsTruthy s.default_persona then (s.default_persona.getD "", some "default")
    else ("", none)

/-! ## Association-list lemmas -/

theorem lookupKey_map_update_self {α : Type} (l : List (String × α)) (k : String) (v : α)
    (h : (lookupKey l k).isSome = true) :
    lookupKey (l.map (fun kv => if kv.1 = k then (k, v) else kv)) k = some v := by
  induction l with
  | nil => simp [lookupKey] at h
  | cons a t ih =>
    obtain ⟨ak, av⟩ := a
    simp only [List.map_cons]
    by_cases hk : ak = k
    · subst hk
      rw [if_pos rfl]
      simp [lookupKey]
    · rw [if_neg hk]
      simp only [lookupKey, hk, if_false] at h
      simp [lookupKey, hk]
      exact ih h

theorem lookupKey_map_update_ne {α : Type} (l : List (String × α)) (k k' : String) (v : α)
    (h : k' ≠ k) :
    lookupKey (l.map (fun kv => if kv.1 = k then (k, v) else kv)) k' = lookupKey l k' := by
  induction l with
  | nil => rfl
  | cons a t ih =>
    obtain ⟨ak, av⟩ := a
    simp only [List.map_cons]
    by_cases hk : ak = k
    · subst hk
      rw [if_pos rfl]
      simp [lookupKey, Ne.symm h, ih]
    · rw [if_neg hk]
      simp [lookupKey, ih]

theorem lookupKey_append_single_self {α : Type} (l : List (String × α)) (k : String) (v : α)
    (h : lookupKey l k = none) :
    lookupKey (l ++ [(k, v)]) k = some v := by
  induction l with
  | nil => simp [lookupKey]
  | cons a t ih =>
    obtain ⟨ak, av⟩ := a
    by_cases hk : ak = k
    · simp [lookupKey, hk] at h
    · simp only [lookupKey, hk, if_false] at h
      simp [lookupKey, hk, ih h]

theorem lookupKey_append_single_ne {α : Type} (l : List (String × α)) (k k' : String) (v : α)
    (h : k' ≠ k) :
    lookupKey (l ++ [(k, v)]) k' = lookupKey l k' := by
  induction l with
  | nil => simp [lookupKey, Ne.symm h]
  | cons a t ih =>
    obtain ⟨ak, av⟩ := a
    by_cases hk : ak = k'
    · simp [lookupKey, hk]
    · simp [lookupKey, hk, ih]

theorem lookupKey_setKey_self {α : Type} (l : List (String × α)) (k : String) (v : α) :
    lookupKey (setKey l k v) k = some v := by
  unfold setKey
  cases h : lookupKey l k with
  | some w => simp [lookupKey_map_update_self l k v (by simp [h])]
  | none => simp [h, lookupKey_append_single_self l k v h]

theorem lookupKey_setKey_ne {α : Type} (l : List (String × α)) (k k' : String) (v : α)
    (h : k' ≠ k) :
    lookupKey (setKey l k v) k' = lookupKey l k' := by
  unfold setKey
  cases hl : lookupKey l k with
  | some w => simp [lookupKey_map_update_ne l k k' v h]
  | none => simp [lookupKey_append_single_ne l k k' v h]

theorem lookupKey_removeKey_self {α : Type} (l : List (String × α)) (k : String) :
    lookupKey (removeKey l k) k = none := by
  induction l with
  | nil => rfl
  | cons a t ih =>
    obtain ⟨ak, av⟩ := a
    by_cases hk : ak = k
    · simpa [removeKey, hk] using ih
    · simpa [removeKey, lookupKey, hk] using ih

theorem lookupKey_removeKey_ne {α : Type} (l : List (String × α)) (k k' : String)
    (h : k' ≠ k) :
    lookupKey (removeKey l k) k' = lookupKey l k' := by
  induction l with
  | nil => rfl
  | cons a t ih =>
    obtain ⟨ak, av⟩ := a
    simp only [removeKey] at ih ⊢
    by_cases hk : ak = k
    · subst hk
      simp [List.filter_cons, lookupKey, Ne.symm h] at ih ⊢
      exact ih
    · by_cases hk' : ak = k'
      · subst hk'
        simp [List.filter_cons, lookupKey, hk]
      · simp [List.filter_cons, lookupKey, hk, hk'] at ih ⊢
        exact ih

theorem lookupKey_mapVal {α : Type} (l : List (String × α)) (f : String → α → α) (k : String) :
    lookupKey (l.map (fun kv => (kv.1, f kv.1 kv.2))) k = (lookupKey l k).map (f k) := by
  induction l with
  | nil => rfl
  | cons a t ih =>
    obtain ⟨ak, av⟩ := a
    by_cases hk : ak = k
    · subst hk; simp [lookupKey]
    · simp [lookupKey, hk, ih]

theorem all_of_filter_length_eq {α : Type} (p : α → Bool) (l : List α)
    (h : (l.filter p).length = l.length) : ∀ x ∈ l, p x = true := by
  induction l with
  | nil => intro x hx; cases hx
  | cons a t ih =>
    by_cases hp : p a = true
    · intro x hx
      rcases List.mem_cons.mp hx with rfl | hx'
      · exact hp
      · refine ih ?_ x hx'
        simpa [List.filter_cons, hp] using h
    · exfalso
      have hle := List.length_filter_le p t
      simp [List.filter_cons, hp] at h
      omega

/-! ## Concrete example states -/

/-- A minimal baseline state for the concrete examples: empty stores, no
locks, no chat context. -/
def baseState : PersonaState :=
  { personas := [], persona_descriptions := [], default_persona := none, chat_persona := none,
    user_avatar := "u.png", name1 := "User", avatars := [],
    persona_allow_multi_connections := false, persona_auto_lock := false,
    selected_group := none, character_avatar := none }

/-! ## Claims -/

/-- C8: for every argument that is not one of the lock types `chat`,
`character` or `default`, the lock-state query (`isPersonaLocked`) and the
lock/unlock operations (`lockPersona`, `unlockPersona`) throw an
invalid-enum error instead of returning a recoverable result. -/
theorem C8_unknown_lock_type_throws (lockType : String) (s : PersonaState)
    (h1 : lockType ≠ "chat") (h2 : lockType ≠ "character") (h3 : lockType ≠ "default") :
    isPersonaLocked lockType s = .error ("Unknown persona lock type: " ++ lockType) ∧
    lockPersona lockType s = .error ("Unknown persona lock type: " ++ lockType) ∧
    unlockPersona lockType s = .error ("Unknown persona lock type: " ++ lockType) := by
  unfold isPersonaLocked lockPersona unlockPersona
  simp [h1, h2, h3]

/-- Witness for C8 at the concrete lock type `foo`. -/
theorem C8_unknown_lock_type_throws_witness :
    isPersonaLocked "foo" baseState = .error ("Unknown persona lock type: " ++ "foo") ∧
    lockPersona "foo" baseState = .error ("Unknown persona lock type: " ++ "foo") ∧
    unlockPersona "foo" baseState = .error ("Unknown persona lock type: " ++ "foo") :=
  C8_unknown_lock_type_throws "foo" baseState (by decide) (by decide) (by decide)

/-- C9: when the currently selected avatar id has no persona bound, every
lock operation first creates one — name set to the current user name, an
empty description, in-prompt position, depth 2, role 0, empty lorebook and
empty connections — and locking then succeeds for each of the three lock
types. -/
theorem C9_lock_creates_persona (s : PersonaState)
    (h : lookupKey s.personas s.user_avatar = none) :
    lookupKey (ensurePersonaExists s).personas s.user_avatar = some s.name1 ∧
    lookupKey (ensurePersonaExists s).persona_descriptions s.user_avatar =
      some { description := "", position := IN_PROMPT, depth := 2, role := 0,
             lorebook := "", connections := some [] } ∧
    (∃ s1, lockPersona "chat" s = .ok s1) ∧
    (∃ s2, lockPersona "character" s = .ok s2) ∧
    (∃ s3, lockPersona "default" s = .ok s3) := by
  have hhk : hasKey s.personas s.user_avatar = false := by simp [hasKey, h]
  have hens : ensurePersonaExists s = { s with
      personas := setKey s.personas s.user_avatar s.name1,
      persona_descriptions := setKey s.persona_descriptions s.user_avatar createdPersonaDescriptor } := by
    unfold ensurePersonaExists
    simp [hhk]
  have hdesc2 : lookupKey (ensurePersonaExists s).persona_descriptions
      (ensurePersonaExists s).user_avatar = some createdPersonaDescriptor := by
    rw [hens]
    exact lookupKey_setKey_self s.persona_descriptions s.user_avatar createdPersonaDescriptor
  refine ⟨?_, ?_, ?_, ?_, ?_⟩
  · rw [hens]
    exact lookupKey_setKey_self s.personas s.user_avatar s.name1
  · have : (ensurePersonaExists s).user_avatar = s.user_avatar := by rw [hens]
    rw [← this, hdesc2]
    rfl
  · exact ⟨_, rfl⟩
  · show ∃ s2, lockPersonaCharacter (ensurePersonaExists s) = .ok s2
    unfold lockPersonaCharacter
    rw [hdesc2]
    cases hg : getCurrentConnectionObj (ensurePersonaExists s) with
    | none => exact ⟨_, rfl⟩
    | some nc =>
      by_cases hid : nc.id = ""
      · simp only [hid, reduceIte]
        exact ⟨_, rfl⟩
      · simp only [if_neg hid]
        cases hb : (ensurePersonaExists s).persona_allow_multi_connections with
        | false =>
          simp only [hb, Bool.not_false, if_true]
          exact ⟨_, rfl⟩
        | true =>
          simp only [hb, Bool.not_true, Bool.false_eq_true, if_false]
          exact ⟨_, rfl⟩
  · exact ⟨_, rfl⟩

/-- Witness for C9 at a concrete state whose selected avatar has no
persona bound. -/
theorem C9_lock_creates_persona_witness :
    lookupKey (ensurePersonaExists baseState).personas baseState.user_avatar = some baseState.name1 ∧
    lookupKey (ensurePersonaExists baseState).persona_descriptions baseState.user_avatar =
      some { description := "", position := IN_PROMPT, depth := 2, role := 0,
             lorebook := "", connections := some [] } ∧
    (lockPersona "chat" baseState).isOk = true ∧
    (lockPersona "character" baseState).isOk = true ∧
    (lockPersona "default" baseState).isOk = true := by
  obtain ⟨h1, h2, ⟨s1, e1⟩, ⟨s2, e2⟩, ⟨s3, e3⟩⟩ := C9_lock_creates_persona baseState (by decide)
  exact ⟨h1, h2, by rw [e1]; rfl, by rw [e2]; rfl, by rw [e3]; rfl⟩

/-- C10: duplicating a persona registers the generated avatar id with the
same display name and a descriptor copying description, position, depth,
role and lorebook from the original, but with no connections; every other
key of both stores — in particular the original persona — is unchanged. -/
theorem C10_duplicate_persona (s : PersonaState) (now : Nat) (avatarId n : String)
    (d : PersonaDescription)
    (hn : lookupKey s.personas avatarId = some n) (hne : n ≠ "")
    (hd : lookupKey s.persona_descriptions avatarId = some d)
    (hfresh : lookupKey s.personas (mkDuplicateAvatarId now n) = none) :
    lookupKey (duplicatePersona now true avatarId s).personas (mkDuplicateAvatarId now n) = some n ∧
    lookupKey (duplicatePersona now true avatarId s).persona_descriptions (mkDuplicateAvatarId now n) =
      some { description := d.description, position := d.position, depth := d.depth,
             role := d.role, lorebook := d.lorebook, connections := none } ∧
    (∀ k, k ≠ mkDuplicateAvatarId now n →
      lookupKey (duplicatePersona now true avatarId s).personas k = lookupKey s.personas k) ∧
    (∀ k, k ≠ mkDuplicateAvatarId now n →
      lookupKey (duplicatePersona now true avatarId s).persona_descriptions k =
        lookupKey s.persona_descriptions k) := by
  have hdup : duplicatePersona now true avatarId s = { s with
      personas := setKey s.personas (mkDuplicateAvatarId now n) n,
      persona_descriptions := setKey s.persona_descriptions (mkDuplicateAvatarId now n)
        { description := d.description, position := d.position, depth := d.depth,
          role := d.role, lorebook := d.lorebook, connections := none },
      avatars := if s.avatars.contains (mkDuplicateAvatarId now n) then s.avatars
        else s.avatars ++ [mkDuplicateAvatarId now n] } := by
    unfold duplicatePersona
    rw [hn]
    simp [hne, hd]
  rw [hdup]
  refine ⟨?_, ?_, ?_, ?_⟩
  · exact lookupKey_setKey_self ..
  · exact lookupKey_setKey_self ..
  · intro k hk
    exact lookupKey_setKey_ne _ _ _ _ hk
  · intro k hk
    exact lookupKey_setKey_ne _ _ _ _ hk

/-- An example persona descriptor with non-default fields, used by the
concrete states below. -/
def patDescriptor : PersonaDescription :=
  { description := "adventurer", position := 0, depth := 3, role := 1, lorebook := "world",
    connections := some [⟨"character", "c1"⟩] }

/-- A state with one persona `p.png` named `Pat`. -/
def patState : PersonaState :=
  { baseState with
    personas := [("p.png", "Pat")],
    persona_descriptions := [("p.png", patDescriptor)],
    avatars := ["p.png"] }

/-- Witness for C10: duplicating `Pat` at time 123. -/
theorem C10_duplicate_persona_witness :
    lookupKey (duplicatePersona 123 true "p.png" patState).personas
      (mkDuplicateAvatarId 123 "Pat") = some "Pat" ∧
    lookupKey (duplicatePersona 123 true "p.png" patState).persona_descriptions
      (mkDuplicateAvatarId 123 "Pat") =
      some { description := patDescriptor.description, position := patDescriptor.position,
             depth := patDescriptor.depth, role := patDescriptor.role,
             lorebook := patDescriptor.lorebook, connections := none } ∧
    lookupKey (duplicatePersona 123 true "p.png" patState).personas "p.png" =
      lookupKey patState.personas "p.png" ∧
    lookupKey (duplicatePersona 123 true "p.png" patState).persona_descriptions "p.png" =
      lookupKey patState.persona_descriptions "p.png" := by
  obtain ⟨h1, h2, h3, h4⟩ :=
    C10_duplicate_persona patState 123 "p.png" "Pat" patDescriptor
      (by decide) (by decide) (by decide) (by decide)
  exact ⟨h1, h2, h3 "p.png" (by decide), h4 "p.png" (by decide)⟩

/-- The persona-creation block does not change the active avatar. -/
theorem ensurePersonaExists_user_avatar (s : PersonaState) :
    (ensurePersonaExists s).user_avatar = s.user_avatar := by
  unfold ensurePersonaExists
  split <;> rfl

/-- The persona-creation block does not change the multi-connection
setting. -/
theorem ensurePersonaExists_multi (s : PersonaState) :
    (ensurePersonaExists s).persona_allow_multi_connections = s.persona_allow_multi_connections := by
  unfold ensurePersonaExists
  split <;> rfl

/-- The persona-creation block does not change the current connection
object. -/
theorem getCurrentConnectionObj_ensure (s : PersonaState) :
    getCurrentConnectionObj (ensurePersonaExists s) = getCurrentConnectionObj s := by
  unfold ensurePersonaExists
  split <;> rfl

/-- After the exclusivity-loop body runs on a descriptor, the stripped
connection is gone from it. -/
theorem stripConnectionValue_not_mem (nc : PersonaConnection) (d : PersonaDescription) :
    ∀ c ∈ (stripConnectionValue nc d).connections.getD [],
      ¬(c.type = nc.type ∧ c.id = nc.id) := by
  intro c hcmem hcontra
  obtain ⟨ht, hi⟩ := hcontra
  unfold stripConnectionValue at hcmem
  cases hcn : d.connections with
  | none =>
    rw [hcn] at hcmem
    simp at hcmem
  | some conns =>
    rw [hcn] at hcmem
    simp only [Option.getD_some] at hcmem
    by_cases hlen : (conns.filter (fun c => !(c.type == nc.type && c.id == nc.id))).length
        = conns.length
    · rw [if_neg (fun hne => hne hlen)] at hcmem
      rw [hcn] at hcmem
      simp only [Option.getD_some] at hcmem
      have hall := all_of_filter_length_eq _ _ hlen c hcmem
      simp [ht, hi] at hall
    · rw [if_pos hlen] at hcmem
      simp only [Option.getD_some, List.mem_filter] at hcmem
      have hpred := hcmem.2
      simp [ht, hi] at hpred

/-- Lookup of another persona after the exclusivity loop: the loop maps
every other descriptor through its body. -/
theorem lookupKey_stripConnectionFromOthers (ua : String) (nc : PersonaConnection)
    (l : List (String × PersonaDescription)) (q : String) (hq : q ≠ ua) :
    lookupKey (stripConnectionFromOthers ua nc l) q =
      (lookupKey l q).map (stripConnectionValue nc) := by
  unfold stripConnectionFromOthers
  have h := lookupKey_mapVal l (fun k d => if k = ua then d else stripConnectionValue nc d) q
  simp only [] at h
  rw [h]
  cases lookupKey l q with
  | none => rfl
  | some d => simp [hq]

/-- C2: when multi connections are disallowed, after `lockPersona` adds the
current connection to the active persona, that connection has been removed
from every other persona's connection set. -/
theorem C2_exclusive_connections (s s' : PersonaState) (nc : PersonaConnection)
    (hmulti : s.persona_allow_multi_connections = false)
    (hconn : getCurrentConnectionObj s = some nc)
    (hid : nc.id ≠ "")
    (hok : lockPersona "character" s = .ok s')
    (q : String) (hq : q ≠ s.user_avatar) (dq : PersonaDescription)
    (hdq : lookupKey s'.persona_descriptions q = some dq) :
    ∀ c ∈ dq.connections.getD [], ¬(c.type = nc.type ∧ c.id = nc.id) := by
  have hok2 : lockPersonaCharacter (ensurePersonaExists s) = .ok s' := hok
  unfold lockPersonaCharacter at hok2
  cases hld : lookupKey (ensurePersonaExists s).persona_descriptions
      (ensurePersonaExists s).user_avatar with
  | none =>
    rw [hld] at hok2
    exact absurd hok2 (by simp)
  | some d =>
    simp only [hld, getCurrentConnectionObj_ensure, hconn, if_neg hid,
      ensurePersonaExists_multi, hmulti, Bool.not_false, if_true, Except.ok.injEq] at hok2
    subst hok2
    have hqe : q ≠ (ensurePersonaExists s).user_avatar := by
      rw [ensurePersonaExists_user_avatar]
      exact hq
    simp only [] at hdq
    rw [lookupKey_stripConnectionFromOthers _ _ _ _ hqe] at hdq
    rw [lookupKey_setKey_ne _ _ _ _ hqe] at hdq
    cases hl0 : lookupKey (ensurePersonaExists s).persona_descriptions q with
    | none =>
      rw [hl0] at hdq
      simp at hdq
    | some d0 =>
      rw [hl0] at hdq
      simp only [Option.map_some'] at hdq
      injection hdq with hdq'
      rw [← hdq']
      exact stripConnectionValue_not_mem nc d0

/-- State for the C2 witness: connection `{character, c1}` is bound to
persona `A.png`; the active persona is `B.png` and the current character
is `c1`. -/
def twoPersonaState : PersonaState :=
  { baseState with
    personas := [("A.png", "Alice"), ("B.png", "Bob")],
    persona_descriptions :=
      [("A.png", { description := "", position := 0, depth := 2, role := 0, lorebook := "",
                   connections := some [⟨"character", "c1"⟩] }),
       ("B.png", { description := "", position := 0, depth := 2, role := 0, lorebook := "",
                   connections := some [] })],
    avatars := ["A.png", "B.png"],
    user_avatar := "B.png",
    character_avatar := some "c1" }

/-- The state after locking persona `B.png` to character `c1`. -/
def twoPersonaLocked : PersonaState :=
  (lockPersona "character" twoPersonaState).toOption.getD twoPersonaState

/-- The descriptor persona `A.png` ends up with after the C2 witness run:
its connection list has been emptied. -/
def emptiedDescriptor : PersonaDescription :=
  { description := "", position := 0, depth := 2, role := 0, lorebook := "",
    connections := some [] }

/-- Witness for C2: binding `c1` to `B.png` after it was bound to `A.png`
removes the connection from `A.png` (whose descriptor afterwards has an
empty connection list, no longer holding `{character, c1}`). -/
theorem C2_exclusive_connections_witness :
    lookupKey twoPersonaLocked.persona_descriptions "A.png" = some emptiedDescriptor ∧
    PersonaConnection.mk "character" "c1" ∉ emptiedDescriptor.connections.getD [] := by
  refine ⟨rfl, fun hmem => ?_⟩
  exact C2_exclusive_connections twoPersonaState twoPersonaLocked ⟨"character", "c1"⟩
    rfl rfl (by decide) rfl "A.png" (by decide) emptiedDescriptor rfl
    ⟨"character", "c1"⟩ hmem ⟨rfl, rfl⟩

/-- A group-chat state for C6: the current chat is group `g1`, and persona
`p.png` holds the connection `{type: group, id: g1}`. -/
def groupChatState : PersonaState :=
  { baseState with
    personas := [("p.png", "Pat")],
    persona_descriptions :=
      [("p.png", { description := "", position := 0, depth := 2, role := 0, lorebook := "",
                   connections := some [⟨"group", "g1"⟩] })],
    avatars := ["p.png"],
    user_avatar := "p.png",
    name1 := "Pat",
    selected_group := some "g1" }

/-- C6 (bug evaluation): in the group chat `g1`, persona `p.png` holds the
group connection — `isPersonaLocked 'character'` reports it locked to the
group, and locking again would store exactly this connection type — yet
`getConnectedPersonas` returns the empty list (its filter only matches
`type === 'character'`), so resolution's connection step selects nothing. -/
theorem C6_group_connection_never_matches :
    isPersonaLocked "character" groupChatState = .ok true ∧
    getCurrentConnectionObj groupChatState = some ⟨"group", "g1"⟩ ∧
    getConnectedPersonas groupChatState = [] ∧
    (loadPersonaForCurrentChat groupChatState none false).chatPersona = "" ∧
    (loadPersonaForCurrentChat groupChatState none false).connectType = none := by
  refine ⟨rfl, rfl, rfl, rfl, rfl⟩

/-- A state for C3 with a dangling chat lock: `chat_metadata['persona']`
points at `ghost.png`, which is not among the avatar files. -/
def danglingLockState : PersonaState :=
  { baseState with chat_persona := some "ghost.png" }

/-- C3 (bug evaluation): on a dangling chat lock, resolution clears the
lock in memory and is idempotent on the next in-memory run, but the only
persistence routine invoked is the settings save (`saveSettingsDebounced`);
the chat-metadata save, which is what persists `chat_metadata['persona']`
(and is used for exactly this deletion in `deleteUserAvatar` and
`unlockPersona`), is never called, so the clearing is not persisted. -/
theorem C3_dangling_lock_clear_not_persisted :
    (loadPersonaForCurrentChat danglingLockState none false).state.chat_persona = none ∧
    (loadPersonaForCurrentChat danglingLockState none false).chatPersona = "" ∧
    (loadPersonaForCurrentChat danglingLockState none false).savedSettings = true ∧
    (loadPersonaForCurrentChat danglingLockState none false).savedMetadata = false ∧
    loadPersonaForCurrentChat (loadPersonaForCurrentChat danglingLockState none false).state
        none false =
      { (loadPersonaForCurrentChat danglingLockState none false) with savedSettings := false } := by
  refine ⟨rfl, rfl, rfl, rfl, rfl⟩

/-! ## Resolution-step lemmas -/

theorem removeAllConnections_personas (t : Option PersonaConnection) (s : PersonaState) :
    (removeAllConnections t s).personas = s.personas := by
  cases t <;> rfl

theorem removeAllConnections_default (t : Option PersonaConnection) (s : PersonaState) :
    (removeAllConnections t s).default_persona = s.default_persona := by
  cases t <;> rfl

theorem removeAllConnections_chat (t : Option PersonaConnection) (s : PersonaState) :
    (removeAllConnections t s).chat_persona = s.chat_persona := by
  cases t <;> rfl

theorem removeAllConnections_user_avatar (t : Option PersonaConnection) (s : PersonaState) :
    (removeAllConnections t s).user_avatar = s.user_avatar := by
  cases t <;> rfl

theorem removeAllConnections_avatars (t : Option PersonaConnection) (s : PersonaState) :
    (removeAllConnections t s).avatars = s.avatars := by
  cases t <;> rfl

/-- Keys absent from the description store stay absent through the
remove-all-connections mutation. -/
theorem removeAllConnections_lookup_none (t : Option PersonaConnection) (s : PersonaState)
    (k : String) (h : lookupKey s.persona_descriptions k = none) :
    lookupKey (removeAllConnections t s).persona_descriptions k = none := by
  cases t with
  | none => exact h
  | some tc =>
    show lookupKey (s.persona_descriptions.map _) k = none
    rw [lookupKey_mapVal s.persona_descriptions
      (fun _ d => match d.connections with
        | some conns =>
          { d with connections := some (conns.filter (fun c => !(tc.type == c.type && tc.id == c.id))) }
        | none => d) k]
    rw [h]
    rfl

theorem resolveChatLockStep_eq_found (s : PersonaState)
    (h1 : jsTruthy s.chat_persona = true)
    (h2 : s.avatars.contains (s.chat_persona.getD "") = true) :
    resolveChatLockStep s = ⟨s, s.chat_persona.getD "", some "chat", false⟩ := by
  unfold resolveChatLockStep
  rw [if_pos h1, if_pos h2]

theorem resolveChatLockStep_eq_dangling (s : PersonaState)
    (h1 : jsTruthy s.chat_persona = true)
    (h2 : s.avatars.contains (s.chat_persona.getD "") = false) :
    resolveChatLockStep s = ⟨{ s with chat_persona := none }, "", none, true⟩ := by
  unfold resolveChatLockStep
  rw [if_pos h1, if_neg (by rw [h2]; exact Bool.false_ne_true)]

theorem resolveChatLockStep_eq_nolock (s : PersonaState)
    (h1 : jsTruthy s.chat_persona = false) :
    resolveChatLockStep s = ⟨s, "", none, false⟩ := by
  unfold resolveChatLockStep
  rw [if_neg (by rw [h1]; exact Bool.false_ne_true)]

theorem resolveConnectionStep_eq_none (s : PersonaState) (a : Option Nat) (ra : Bool)
    (h : (getConnectedPersonas s).isEmpty = true) :
    resolveConnectionStep s a ra = ⟨s, "", false, false, false⟩ := by
  unfold resolveConnectionStep
  rw [if_pos h]

theorem resolveConnectionStep_eq_single (s : PersonaState) (a : Option Nat) (ra : Bool)
    (h0 : (getConnectedPersonas s).isEmpty = false)
    (h1 : (getConnectedPersonas s).length = 1) :
    resolveConnectionStep s a ra = ⟨s, (getConnectedPersonas s).headD "", false, false, false⟩ := by
  unfold resolveConnectionStep
  rw [if_neg (by rw [h0]; exact Bool.false_ne_true), if_pos h1]

theorem resolveConnectionStep_eq_first (s : PersonaState) (a : Option Nat) (ra : Bool)
    (h0 : (getConnectedPersonas s).isEmpty = false)
    (h1 : (getConnectedPersonas s).length ≠ 1)
    (hm : s.persona_allow_multi_connections = false) :
    resolveConnectionStep s a ra = ⟨s, (getConnectedPersonas s).headD "", false, true, false⟩ := by
  unfold resolveConnectionStep
  rw [if_neg (by rw [h0]; exact Bool.false_ne_true), if_neg h1,
    if_pos (by rw [hm]; rfl)]

theorem resolveConnectionStep_eq_prompt (s : PersonaState) (a : Option Nat) (ra : Bool)
    (h0 : (getConnectedPersonas s).isEmpty = false)
    (h1 : (getConnectedPersonas s).length ≠ 1)
    (hm : s.persona_allow_multi_connections = true) :
    resolveConnectionStep s a ra =
      ⟨if ra && (getCurrentConnectionObj s).isSome then
          removeAllConnections (getCurrentConnectionObj s) s else s,
        if ra then "" else (a.bind (fun i => (getConnectedPersonas s).get? i)).getD "",
        ra && (getCurrentConnectionObj s).isSome, false, true⟩ := by
  unfold resolveConnectionStep
  rw [if_neg (by rw [h0]; exact Bool.false_ne_true), if_neg h1,
    if_neg (by rw [hm]; simp)]

/-- A truthy optional string holds a nonempty value. -/
theorem jsTruthy_getD_ne (o : Option String) (h : jsTruthy o = true) : o.getD "" ≠ "" := by
  cases o with
  | none => simp [jsTruthy] at h
  | some x =>
    simp only [jsTruthy, Bool.not_eq_true'] at h
    simp only [Option.getD_some]
    intro hx
    rw [hx] at h
    exact absurd h (by decide)

/-- The connection step never changes the default persona. -/
theorem resolveConnectionStep_default (s : PersonaState) (a : Option Nat) (ra : Bool) :
    (resolveConnectionStep s a ra).state.default_persona = s.default_persona := by
  by_cases h0 : (getConnectedPersonas s).isEmpty = true
  · rw [resolveConnectionStep_eq_none s a ra h0]
  · by_cases h1 : (getConnectedPersonas s).length = 1
    · rw [resolveConnectionStep_eq_single s a ra (by simpa using h0) h1]
    · cases hm : s.persona_allow_multi_connections with
      | false => rw [resolveConnectionStep_eq_first s a ra (by simpa using h0) h1 hm]
      | true =>
        rw [resolveConnectionStep_eq_prompt s a ra (by simpa using h0) h1 hm]
        simp [apply_ite PersonaState.default_persona, removeAllConnections_default]

theorem connectionPick_none (cs : List String) (m : Bool) (a : Option Nat) (ra : Bool)
    (h : cs.isEmpty = true) : connectionPick cs m a ra = "" := by
  unfold connectionPick
  rw [if_pos h]

theorem connectionPick_single (cs : List String) (m : Bool) (a : Option Nat) (ra : Bool)
    (h0 : cs.isEmpty = false) (h1 : cs.length = 1) : connectionPick cs m a ra = cs.headD "" := by
  unfold connectionPick
  rw [if_neg (by rw [h0]; exact Bool.false_ne_true), if_pos h1]

theorem connectionPick_first (cs : List String) (m : Bool) (a : Option Nat) (ra : Bool)
    (h0 : cs.isEmpty = false) (h1 : cs.length ≠ 1) (hm : m = false) :
    connectionPick cs m a ra = cs.headD "" := by
  unfold connectionPick
  rw [if_neg (by rw [h0]; exact Bool.false_ne_true), if_neg h1, if_pos (by rw [hm]; rfl)]

theorem connectionPick_prompt (cs : List String) (m : Bool) (a : Option Nat) (ra : Bool)
    (h0 : cs.isEmpty = false) (h1 : cs.length ≠ 1) (hm : m = true) :
    connectionPick cs m a ra = (if ra then "" else (a.bind (fun i => cs.get? i)).getD "") := by
  unfold connectionPick
  rw [if_neg (by rw [h0]; exact Bool.false_ne_true), if_neg h1, if_neg (by rw [hm]; simp)]

/-- The selection outcome of the shared tail (connection step + default
step) of resolution, compared with the plain cascade, for any state the
chat-lock step can hand over. -/
theorem loadPersona_selection_tail (s s0 : PersonaState) (a : Option Nat) (ra : Bool) (sv : Bool)
    (hstep1 : resolveChatLockStep s = ⟨s0, "", none, sv⟩)
    (hcs : getConnectedPersonas s0 = getConnectedPersonas s)
    (hmm : s0.persona_allow_multi_connections = s.persona_allow_multi_connections)
    (hdd : s0.default_persona = s.default_persona)
    (hlock : (jsTruthy s.chat_persona && s.avatars.contains (s.chat_persona.getD "")) = false) :
    ((loadPersonaForCurrentChat s a ra).chatPersona,
     (loadPersonaForCurrentChat s a ra).connectType) = resolveSelectionSpec s a ra := by
  by_cases h0 : (getConnectedPersonas s).isEmpty = true
  · have e2 := resolveConnectionStep_eq_none s0 a ra (by rw [hcs]; exact h0)
    have ep := connectionPick_none (getConnectedPersonas s) s.persona_allow_multi_connections a ra h0
    simp only [loadPersonaForCurrentChat, resolveSelectionSpec, hstep1, hlock, e2, ep]
    by_cases hd : jsTruthy s.default_persona = true <;>
      simp [hd, hdd] <;> (try (split_ifs <;> simp_all))
  · have h0' : (getConnectedPersonas s).isEmpty = false := by simpa using h0
    by_cases hl1 : (getConnectedPersonas s).length = 1
    · have e2 := resolveConnectionStep_eq_single s0 a ra (by rw [hcs]; exact h0')
        (by rw [hcs]; exact hl1)
      have ep := connectionPick_single (getConnectedPersonas s) s.persona_allow_multi_connections
        a ra h0' hl1
      simp only [loadPersonaForCurrentChat, resolveSelectionSpec, hstep1, hlock, e2, ep, hcs]
      by_cases hd : jsTruthy s.default_persona = true <;>
        simp [hd, hdd] <;> (try (split_ifs <;> simp_all))
    · cases hmul : s.persona_allow_multi_connections with
      | false =>
        have e2 := resolveConnectionStep_eq_first s0 a ra (by rw [hcs]; exact h0')
          (by rw [hcs]; exact hl1) (by rw [hmm]; exact hmul)
        have ep := connectionPick_first (getConnectedPersonas s) s.persona_allow_multi_connections
          a ra h0' hl1 hmul
        simp only [loadPersonaForCurrentChat, resolveSelectionSpec, hstep1, hlock, e2, ep, hcs]
        by_cases hd : jsTruthy s.default_persona = true <;>
          simp [hd, hdd] <;> (try (split_ifs <;> simp_all))
      | true =>
        have e2 := resolveConnectionStep_eq_prompt s0 a ra (by rw [hcs]; exact h0')
          (by rw [hcs]; exact hl1) (by rw [hmm]; exact hmul)
        have ep := connectionPick_prompt (getConnectedPersonas s) s.persona_allow_multi_connections
          a ra h0' hl1 hmul
        have hdd2 : (if ra && (getCurrentConnectionObj s0).isSome then
            removeAllConnections (getCurrentConnectionObj s0) s0 else s0).default_persona
            = s.default_persona := by
          split
          · rw [removeAllConnections_default]
            exact hdd
          · exact hdd
        simp only [loadPersonaForCurrentChat, resolveSelectionSpec, hstep1, hlock, e2, ep, hcs]
        by_cases hd : jsTruthy s.default_persona = true <;>
          simp [hd, hdd, hdd2] <;> (try (split_ifs <;> simp_all))

/-- Helper: resolution's selection (persona and connection type) equals
the plain precedence cascade `resolveSelectionSpec`. -/
theorem loadPersona_selection_eq (s : PersonaState) (a : Option Nat) (ra : Bool) :
    ((loadPersonaForCurrentChat s a ra).chatPersona,
     (loadPersonaForCurrentChat s a ra).connectType) = resolveSelectionSpec s a ra := by
  by_cases h1 : jsTruthy s.chat_persona = true
  · by_cases h2 : s.avatars.contains (s.chat_persona.getD "") = true
    · have hne := jsTruthy_getD_ne s.chat_persona h1
      have e1 := resolveChatLockStep_eq_found s h1 h2
      simp only [loadPersonaForCurrentChat, resolveSelectionSpec, e1, h1, h2]
      simp [hne]
    · have h2' : s.avatars.contains (s.chat_persona.getD "") = false := by simpa using h2
      exact loadPersona_selection_tail s { s with chat_persona := none } a ra true
        (resolveChatLockStep_eq_dangling s h1 h2') rfl rfl rfl (by rw [h1, h2']; rfl)
  · have h1' : jsTruthy s.chat_persona = false := by simpa using h1
    exact loadPersona_selection_tail s s a ra false
      (resolveChatLockStep_eq_nolock s h1') rfl rfl rfl (by rw [h1']; rfl)

/-- When the chat-lock step selects nothing, it hands over a state that
differs from the input at most in the (cleared) chat lock. -/
theorem resolveChatLockStep_handoff (s : PersonaState)
    (hlock : (jsTruthy s.chat_persona && s.avatars.contains (s.chat_persona.getD "")) = false) :
    ∃ s0 sv, resolveChatLockStep s = ⟨s0, "", none, sv⟩ ∧
      getConnectedPersonas s0 = getConnectedPersonas s ∧
      s0.persona_allow_multi_connections = s.persona_allow_multi_connections ∧
      s0.default_persona = s.default_persona := by
  by_cases h1t : jsTruthy s.chat_persona = true
  · have h2' : s.avatars.contains (s.chat_persona.getD "") = false := by
      rw [h1t] at hlock
      simpa using hlock
    exact ⟨_, _, resolveChatLockStep_eq_dangling s h1t h2', rfl, rfl, rfl⟩
  · exact ⟨_, _, resolveChatLockStep_eq_nolock s (by simpa using h1t), rfl, rfl, rfl⟩

/-- C1 (amended): resolution selects, in order, the chat-locked persona if
its avatar still exists (a dangling lock is skipped and cleared), else the
persona given by the connection rule, else the default persona whenever
one is set — even a dangling default is selected this run, its stored
pointer being cleared only for subsequent runs; if no source applies, no
persona is selected. -/
theorem C1_resolution_precedence :
    ∀ (s : PersonaState) (askPick : Option Nat) (askRemoveAll : Bool),
      ((loadPersonaForCurrentChat s askPick askRemoveAll).chatPersona,
       (loadPersonaForCurrentChat s askPick askRemoveAll).connectType) =
        resolveSelectionSpec s askPick askRemoveAll :=
  loadPersona_selection_eq

/-- A state where the only applicable source is a default persona whose
avatar no longer exists. -/
def danglingDefaultState : PersonaState :=
  { baseState with default_persona := some "ghost.png" }

/-- Counterexample to C1 as stated: no chat lock, no connected persona,
and the default persona's avatar does not exist — the claim says no
persona is selected, but resolution still selects the dangling default
(clearing the stored pointer only for later runs). -/
theorem C1_resolution_precedence_counterexample :
    danglingDefaultState.chat_persona = none ∧
    getConnectedPersonas danglingDefaultState = [] ∧
    danglingDefaultState.avatars.contains "ghost.png" = false ∧
    (loadPersonaForCurrentChat danglingDefaultState none false).chatPersona = "ghost.png" ∧
    (loadPersonaForCurrentChat danglingDefaultState none false).connectType = some "default" ∧
    (loadPersonaForCurrentChat danglingDefaultState none false).state.default_persona = none := by
  refine ⟨rfl, rfl, rfl, rfl, rfl, rfl⟩

/-- C5: when the chat-lock step yields nothing, the connection step of
resolution selects the single connected persona; with several connected
and multi connections disallowed it selects the first and warns; with
several connected and multi connections allowed it prompts the user. -/
theorem C5_connection_step (s : PersonaState) (askPick : Option Nat) (ra : Bool)
    (hnolock : (jsTruthy s.chat_persona && s.avatars.contains (s.chat_persona.getD "")) = false)
    (hne : (getConnectedPersonas s).headD "" ≠ "") :
    ((getConnectedPersonas s).length = 1 →
      (loadPersonaForCurrentChat s askPick ra).chatPersona = (getConnectedPersonas s).headD "" ∧
      (loadPersonaForCurrentChat s askPick ra).warnedMultiple = false ∧
      (loadPersonaForCurrentChat s askPick ra).prompted = false) ∧
    (1 < (getConnectedPersonas s).length → s.persona_allow_multi_connections = false →
      (loadPersonaForCurrentChat s askPick ra).chatPersona = (getConnectedPersonas s).headD "" ∧
      (loadPersonaForCurrentChat s askPick ra).warnedMultiple = true) ∧
    (1 < (getConnectedPersonas s).length → s.persona_allow_multi_connections = true →
      (loadPersonaForCurrentChat s askPick ra).prompted = true) := by
  obtain ⟨s0, sv, hstep1, hcs, hmm2, hdd⟩ := resolveChatLockStep_handoff s hnolock
  refine ⟨?_, ?_, ?_⟩
  · intro hl1
    have h0' : (getConnectedPersonas s).isEmpty = false := by
      cases hG : getConnectedPersonas s with
      | nil => rw [hG] at hl1; simp at hl1
      | cons x xs => rfl
    have e2 := resolveConnectionStep_eq_single s0 askPick ra (by rw [hcs]; exact h0')
      (by rw [hcs]; exact hl1)
    have hne' : (getConnectedPersonas s).head?.getD "" ≠ "" := by
      cases hG : getConnectedPersonas s with
      | nil => rw [hG] at hne; exact absurd rfl hne
      | cons x xs =>
        rw [hG] at hne
        simpa using hne
    simp only [loadPersonaForCurrentChat, hstep1, e2, hcs]
    simp [hne, hne']
  · intro hl1 hmul
    have h0' : (getConnectedPersonas s).isEmpty = false := by
      cases hG : getConnectedPersonas s with
      | nil => rw [hG] at hl1; simp at hl1
      | cons x xs => rfl
    have e2 := resolveConnectionStep_eq_first s0 askPick ra (by rw [hcs]; exact h0')
      (by rw [hcs]; omega) (by rw [hmm2]; exact hmul)
    have hne' : (getConnectedPersonas s).head?.getD "" ≠ "" := by
      cases hG : getConnectedPersonas s with
      | nil => rw [hG] at hne; exact absurd rfl hne
      | cons x xs =>
        rw [hG] at hne
        simpa using hne
    simp only [loadPersonaForCurrentChat, hstep1, e2, hcs]
    simp [hne, hne']
  · intro hl1 hmul
    have h0' : (getConnectedPersonas s).isEmpty = false := by
      cases hG : getConnectedPersonas s with
      | nil => rw [hG] at hl1; simp at hl1
      | cons x xs => rfl
    have e2 := resolveConnectionStep_eq_prompt s0 askPick ra (by rw [hcs]; exact h0')
      (by rw [hcs]; omega) (by rw [hmm2]; exact hmul)
    simp only [loadPersonaForCurrentChat, hstep1, e2, hcs]
    simp

/-- A state with two personas connected to the current character and multi
connections disallowed. -/
def twoConnectedState : PersonaState :=
  { baseState with
    personas := [("P1.png", "One"), ("P2.png", "Two")],
    persona_descriptions :=
      [("P1.png", { description := "", position := 0, depth := 2, role := 0, lorebook := "",
                    connections := some [⟨"character", "c1"⟩] }),
       ("P2.png", { description := "", position := 0, depth := 2, role := 0, lorebook := "",
                    connections := some [⟨"character", "c1"⟩] })],
    avatars := ["P1.png", "P2.png"],
    character_avatar := some "c1" }

/-- Witness for C5: two personas connected, multi connections disallowed —
the first is selected and the warning is emitted. -/
theorem C5_connection_step_witness :
    (loadPersonaForCurrentChat twoConnectedState none false).chatPersona =
      (getConnectedPersonas twoConnectedState).headD "" ∧
    (loadPersonaForCurrentChat twoConnectedState none false).warnedMultiple = true :=
  (C5_connection_step twoConnectedState none false (by decide) (by decide)).2.1
    (by decide) (by decide)

/-- `selectCurrentPersona` never touches the persona name store. -/
theorem selectCurrentPersonaM_personas (s : PersonaState) :
    (selectCurrentPersonaM s).1.personas = s.personas := by
  unfold selectCurrentPersonaM
  repeat' split
  all_goals simp only []
  repeat' split
  all_goals rfl

/-- `selectCurrentPersona` never touches the default persona. -/
theorem selectCurrentPersonaM_default (s : PersonaState) :
    (selectCurrentPersonaM s).1.default_persona = s.default_persona := by
  unfold selectCurrentPersonaM
  repeat' split
  all_goals simp only []
  repeat' split
  all_goals rfl

/-- `selectCurrentPersona` leaves the chat lock alone or auto-locks it to
the active avatar. -/
theorem selectCurrentPersonaM_chat (s : PersonaState) :
    (selectCurrentPersonaM s).1.chat_persona = s.chat_persona ∨
    (selectCurrentPersonaM s).1.chat_persona = some s.user_avatar := by
  unfold selectCurrentPersonaM
  repeat' split
  all_goals simp only []
  repeat' split
  all_goals first
    | exact Or.inl rfl
    | exact Or.inl trivial
    | exact Or.inr rfl

/-- `selectCurrentPersona` only ever writes the active avatar's
descriptor. -/
theorem selectCurrentPersonaM_descs_ne (s : PersonaState) (k : String)
    (hk : k ≠ s.user_avatar) :
    lookupKey (selectCurrentPersonaM s).1.persona_descriptions k =
      lookupKey s.persona_descriptions k := by
  unfold selectCurrentPersonaM
  repeat' split
  all_goals simp only []
  repeat' split
  all_goals first
    | rfl
    | (exact lookupKey_setKey_ne _ _ _ _ hk)

theorem resolveChatLockStep_state_personas (s : PersonaState) :
    (resolveChatLockStep s).state.personas = s.personas := by
  unfold resolveChatLockStep
  repeat' split
  all_goals rfl

theorem resolveChatLockStep_state_descs (s : PersonaState) :
    (resolveChatLockStep s).state.persona_descriptions = s.persona_descriptions := by
  unfold resolveChatLockStep
  repeat' split
  all_goals rfl

theorem resolveChatLockStep_state_default (s : PersonaState) :
    (resolveChatLockStep s).state.default_persona = s.default_persona := by
  unfold resolveChatLockStep
  repeat' split
  all_goals rfl

theorem resolveChatLockStep_state_chat (s : PersonaState) :
    (resolveChatLockStep s).state.chat_persona = s.chat_persona ∨
    (resolveChatLockStep s).state.chat_persona = none := by
  unfold resolveChatLockStep
  repeat' split
  all_goals first | exact Or.inl rfl | exact Or.inr rfl

theorem resolveConnectionStep_state_personas (s : PersonaState) (a : Option Nat) (ra : Bool) :
    (resolveConnectionStep s a ra).state.personas = s.personas := by
  unfold resolveConnectionStep
  repeat' split
  all_goals simp only []
  repeat' split
  all_goals first | rfl | (exact removeAllConnections_personas _ _)

theorem resolveConnectionStep_state_chat (s : PersonaState) (a : Option Nat) (ra : Bool) :
    (resolveConnectionStep s a ra).state.chat_persona = s.chat_persona := by
  unfold resolveConnectionStep
  repeat' split
  all_goals simp only []
  repeat' split
  all_goals first | rfl | (exact removeAllConnections_chat _ _)

theorem resolveConnectionStep_lookup_none (s : PersonaState) (a : Option Nat) (ra : Bool)
    (k : String) (h : lookupKey s.persona_descriptions k = none) :
    lookupKey (resolveConnectionStep s a ra).state.persona_descriptions k = none := by
  unfold resolveConnectionStep
  repeat' split
  all_goals simp only []
  repeat' split
  all_goals first | exact h | (exact removeAllConnections_lookup_none _ _ _ h)

theorem setUserAvatarModel_personas (img : String) (t : PersonaState) :
    (setUserAvatarModel img t).1.personas = t.personas := by
  unfold setUserAvatarModel
  rw [selectCurrentPersonaM_personas]

theorem setUserAvatarModel_default (img : String) (t : PersonaState) :
    (setUserAvatarModel img t).1.default_persona = t.default_persona := by
  unfold setUserAvatarModel
  rw [selectCurrentPersonaM_default]

theorem setUserAvatarModel_chat (img : String) (t : PersonaState) :
    (setUserAvatarModel img t).1.chat_persona = t.chat_persona ∨
    (setUserAvatarModel img t).1.chat_persona = some img := by
  unfold setUserAvatarModel
  rcases selectCurrentPersonaM_chat { t with user_avatar := img } with h | h
  · exact Or.inl h
  · exact Or.inr h

theorem setUserAvatarModel_lookup_none (img : String) (t : PersonaState) (k : String)
    (hk : k ≠ img) (h : lookupKey t.persona_descriptions k = none) :
    lookupKey (setUserAvatarModel img t).1.persona_descriptions k = none := by
  unfold setUserAvatarModel
  rw [selectCurrentPersonaM_descs_ne _ _ (by simpa using hk)]
  exact h

/-- Leaf helper: the final `setUserAvatar` call either keeps the chat lock
or sets it to the selected persona. -/
theorem setUserAvatarModel_chat_disj (C : String) (S : PersonaState) (T : Option String)
    (h : S.chat_persona = T ∨ S.chat_persona = none) :
    (setUserAvatarModel C S).1.chat_persona = T ∨
    (setUserAvatarModel C S).1.chat_persona = none ∨
    (setUserAvatarModel C S).1.chat_persona = some C := by
  rcases setUserAvatarModel_chat C S with h2 | h2
  · rcases h with h3 | h3
    · exact Or.inl (h2.trans h3)
    · exact Or.inr (Or.inl (h2.trans h3))
  · exact Or.inr (Or.inr h2)

/-- Leaf helper: a key absent from the descriptor store stays absent
through the final `setUserAvatar` call unless it is the selected persona. -/
theorem setUserAvatarModel_desc_none_leaf (C : String) (S : PersonaState) (k : String)
    (h : lookupKey S.persona_descriptions k = none) :
    lookupKey (setUserAvatarModel C S).1.persona_descriptions k = none ∨ C = k := by
  by_cases hkc : C = k
  · exact Or.inr hkc
  · exact Or.inl (setUserAvatarModel_lookup_none C S k (fun hh => hkc hh.symm) h)

/-- Resolution never changes the persona name store. -/
theorem loadPersona_state_personas (s : PersonaState) (a : Option Nat) (ra : Bool) :
    (loadPersonaForCurrentChat s a ra).state.personas = s.personas := by
  unfold loadPersonaForCurrentChat
  repeat' split
  all_goals simp only []
  repeat' split
  all_goals simp [setUserAvatarModel_personas, resolveConnectionStep_state_personas,
    resolveChatLockStep_state_personas]

/-- Resolution leaves an unset default persona unset. -/
theorem loadPersona_state_default_none (s : PersonaState) (a : Option Nat) (ra : Bool)
    (h : s.default_persona = none) :
    (loadPersonaForCurrentChat s a ra).state.default_persona = none := by
  unfold loadPersonaForCurrentChat
  repeat' split
  all_goals simp only []
  repeat' split
  all_goals simp [setUserAvatarModel_default, resolveConnectionStep_default,
    resolveChatLockStep_state_default, h]

/-- After resolution the chat lock is unchanged, cleared, or set to the
selected persona. -/
theorem loadPersona_state_chat (s : PersonaState) (a : Option Nat) (ra : Bool) :
    (loadPersonaForCurrentChat s a ra).state.chat_persona = s.chat_persona ∨
    (loadPersonaForCurrentChat s a ra).state.chat_persona = none ∨
    (loadPersonaForCurrentChat s a ra).state.chat_persona =
      some ((loadPersonaForCurrentChat s a ra).chatPersona) := by
  unfold loadPersonaForCurrentChat
  repeat' split
  all_goals simp only []
  repeat' split
  all_goals first
    | exact Or.inr (Or.inl rfl)
    | (refine setUserAvatarModel_chat_disj _ _ _ ?_
       first
        | exact Or.inr rfl
        | ((rcases resolveChatLockStep_state_chat s with h1 | h1 <;>
            simp [h1, resolveConnectionStep_state_chat]) <;> done))
    | ((rcases resolveChatLockStep_state_chat s with h1 | h1 <;>
        simp [h1, resolveConnectionStep_state_chat]) <;> done)

/-- A key absent from the descriptor store stays absent through
resolution, unless it is the selected persona (whose descriptor the final
`setUserAvatar` call may create). -/
theorem loadPersona_lookup_desc_none (s : PersonaState) (a : Option Nat) (ra : Bool)
    (k : String) (h : lookupKey s.persona_descriptions k = none) :
    lookupKey (loadPersonaForCurrentChat s a ra).state.persona_descriptions k = none ∨
    (loadPersonaForCurrentChat s a ra).chatPersona = k := by
  unfold loadPersonaForCurrentChat
  repeat' split
  all_goals simp only []
  repeat' split
  all_goals first
    | (exact Or.inl (by
        try simp only [resolveChatLockStep_state_descs]
        first
          | exact h
          | exact resolveConnectionStep_lookup_none _ a ra k
              (by try simp only [resolveChatLockStep_state_descs]
                  exact h)))
    | (refine setUserAvatarModel_desc_none_leaf _ _ _ ?_
       try simp only [resolveChatLockStep_state_descs]
       first
        | exact h
        | exact resolveConnectionStep_lookup_none _ a ra k
            (by try simp only [resolveChatLockStep_state_descs]
                exact h))

/-- The connection-step pick is empty or a connected persona. -/
theorem connectionPick_mem (cs : List String) (m : Bool) (a : Option Nat) (ra : Bool) :
    connectionPick cs m a ra = "" ∨ connectionPick cs m a ra ∈ cs := by
  unfold connectionPick
  split_ifs with h0 h1 hm hra
  · exact Or.inl rfl
  · cases cs with
    | nil => simp at h0
    | cons x xs => exact Or.inr (by simp)
  · cases cs with
    | nil => simp at h0
    | cons x xs => exact Or.inr (by simp)
  · exact Or.inl rfl
  · cases a with
    | none => exact Or.inl rfl
    | some i =>
      cases hg : cs.get? i with
      | none =>
        refine Or.inl ?_
        show (cs.get? i).getD "" = ""
        rw [hg]
        rfl
      | some x =>
        refine Or.inr ?_
        show (cs.get? i).getD "" ∈ cs
        rw [hg]
        exact List.get?_mem hg

/-- A pair in an association list is found by `lookupKey` (possibly with
another value under duplicate keys, but never `none`). -/
theorem lookupKey_ne_none_of_mem {α : Type} (l : List (String × α)) (kv : String × α)
    (h : kv ∈ l) : lookupKey l kv.1 ≠ none := by
  induction l with
  | nil => cases h
  | cons a t ih =>
    obtain ⟨ak, av⟩ := a
    rcases List.mem_cons.mp h with rfl | h'
    · simp [lookupKey]
    · by_cases hk : ak = kv.1
      · simp [lookupKey, hk]
      · simp only [lookupKey, hk, if_false]
        exact ih h'

/-- Connected personas all have a descriptor entry. -/
theorem getConnectedPersonas_hasKey (s : PersonaState) (k : String)
    (h : k ∈ getConnectedPersonas s) : lookupKey s.persona_descriptions k ≠ none := by
  unfold getConnectedPersonas at h
  simp only [List.mem_map, List.mem_filter] at h
  obtain ⟨kv, ⟨hmem, _⟩, hk⟩ := h
  rw [← hk]
  exact lookupKey_ne_none_of_mem s.persona_descriptions kv hmem

/-- The selected persona comes from the chat lock, a connection, or the
default persona (or nothing is selected). -/
theorem loadPersona_chatPersona_sources (s : PersonaState) (a : Option Nat) (ra : Bool) :
    (loadPersonaForCurrentChat s a ra).chatPersona = "" ∨
    (loadPersonaForCurrentChat s a ra).chatPersona = s.chat_persona.getD "" ∨
    (loadPersonaForCurrentChat s a ra).chatPersona ∈ getConnectedPersonas s ∨
    some ((loadPersonaForCurrentChat s a ra).chatPersona) = s.default_persona := by
  have hsel := loadPersona_selection_eq s a ra
  have hcp : (loadPersonaForCurrentChat s a ra).chatPersona = (resolveSelectionSpec s a ra).1 := by
    rw [← hsel]
  rw [hcp]
  unfold resolveSelectionSpec
  simp only []
  split_ifs with h1 h2 h3
  · exact Or.inr (Or.inl rfl)
  · rcases connectionPick_mem (getConnectedPersonas s) s.persona_allow_multi_connections a ra
      with hc | hc
    · exact absurd hc h2
    · exact Or.inr (Or.inr (Or.inl hc))
  · cases hdp : s.default_persona with
    | none => rw [hdp] at h3; simp [jsTruthy] at h3
    | some d => exact Or.inr (Or.inr (Or.inr rfl))
  · exact Or.inl rfl

/-- After the stores have been purged of avatar `A` and neither lock
points at it, re-resolving keeps `A` out of the stores and off the chat
lock. -/
theorem delete_core_facts (u : PersonaState) (a : Option Nat) (ra : Bool) (A : String)
    (hA : A ≠ "")
    (h1 : lookupKey u.personas A = none)
    (h2 : lookupKey u.persona_descriptions A = none)
    (h3 : u.default_persona ≠ some A)
    (h4 : u.chat_persona ≠ some A) :
    lookupKey (loadPersonaForCurrentChat u a ra).state.personas A = none ∧
    lookupKey (loadPersonaForCurrentChat u a ra).state.persona_descriptions A = none ∧
    (u.default_persona = none → (loadPersonaForCurrentChat u a ra).state.default_persona = none) ∧
    (loadPersonaForCurrentChat u a ra).state.chat_persona ≠ some A := by
  have hcpne : (loadPersonaForCurrentChat u a ra).chatPersona ≠ A := by
    rcases loadPersona_chatPersona_sources u a ra with h | h | h | h
    · rw [h]
      exact fun hh => hA hh.symm
    · rw [h]
      cases hc : u.chat_persona with
      | none => simpa using fun hh => hA hh.symm
      | some c =>
        simp only [Option.getD_some]
        intro hh
        apply h4
        rw [hc, hh]
    · intro hh
      rw [hh] at h
      exact getConnectedPersonas_hasKey u A h h2
    · intro hh
      rw [hh] at h
      exact h3 h.symm
  refine ⟨?_, ?_, ?_, ?_⟩
  · rw [loadPersona_state_personas]
    exact h1
  · rcases loadPersona_lookup_desc_none u a ra A h2 with h | h
    · exact h
    · exact absurd h hcpne
  · intro hd
    exact loadPersona_state_default_none u a ra hd
  · rcases loadPersona_state_chat u a ra with h | h | h
    · rw [h]
      exact h4
    · rw [h]
      simp
    · rw [h]
      intro hh
      injection hh with hh'
      exact hcpne hh'

/-- C7: deleting a persona removes its name entry and its descriptor; if
it was the default persona, the default is cleared with a user-visible
warning and the `default` lock query no longer reports it; if it was
chat-locked, the chat lock is cleared (and never points back at it, even
after the re-resolution the deletion triggers). -/
theorem C7_delete_persona (s : PersonaState) (a : Option Nat) (ra : Bool)
    (hne : s.user_avatar ≠ "") :
    lookupKey (deleteUserAvatar true true a ra s).state.personas s.user_avatar = none ∧
    lookupKey (deleteUserAvatar true true a ra s).state.persona_descriptions s.user_avatar = none ∧
    (s.default_persona = some s.user_avatar →
      (deleteUserAvatar true true a ra s).warnedDefaultDeleted = true ∧
      (deleteUserAvatar true true a ra s).state.default_persona = none ∧
      isPersonaLocked "default" (deleteUserAvatar true true a ra s).state = .ok false) ∧
    (s.chat_persona = some s.user_avatar →
      (deleteUserAvatar true true a ra s).warnedLockDeleted = true ∧
      (deleteUserAvatar true true a ra s).state.chat_persona ≠ some s.user_avatar) := by
  have hguard : ¬(s.user_avatar = "" ∨ (true : Bool) = false ∨ (true : Bool) = false) := by
    simp [hne]
  unfold deleteUserAvatar
  rw [if_neg hguard]
  simp only []
  by_cases hwd : (s.default_persona == some s.user_avatar) = true
  · simp only [hwd, if_true]
    by_cases hwl : (s.chat_persona == some s.user_avatar) = true
    · simp only [hwl, if_true]
      obtain ⟨c1, c2, c3, c4⟩ := delete_core_facts
        (⟨removeKey s.personas s.user_avatar, removeKey s.persona_descriptions s.user_avatar, none, none, s.user_avatar, s.name1, s.avatars.erase s.user_avatar, s.persona_allow_multi_connections, s.persona_auto_lock, s.selected_group, s.character_avatar⟩ : PersonaState) a ra s.user_avatar hne
        (lookupKey_removeKey_self s.personas s.user_avatar)
        (lookupKey_removeKey_self s.persona_descriptions s.user_avatar)
        (by simp) (by simp)
      refine ⟨c1, c2, fun _ => ⟨by trivial, c3 rfl, ?_⟩, fun _ => ⟨by trivial, c4⟩⟩
      unfold isPersonaLocked
      rw [if_pos rfl, c3 rfl]
      rfl
    · simp only [hwl]
      rw [if_neg Bool.false_ne_true]
      obtain ⟨c1, c2, c3, c4⟩ := delete_core_facts
        (⟨removeKey s.personas s.user_avatar, removeKey s.persona_descriptions s.user_avatar, none, s.chat_persona, s.user_avatar, s.name1, s.avatars.erase s.user_avatar, s.persona_allow_multi_connections, s.persona_auto_lock, s.selected_group, s.character_avatar⟩ : PersonaState) a ra s.user_avatar hne
        (lookupKey_removeKey_self s.personas s.user_avatar)
        (lookupKey_removeKey_self s.persona_descriptions s.user_avatar)
        (by simp) (by simpa using hwl)
      refine ⟨c1, c2, fun _ => ⟨by trivial, c3 rfl, ?_⟩, fun hcl => absurd (by simp [hcl]) hwl⟩
      unfold isPersonaLocked
      rw [if_pos rfl, c3 rfl]
      rfl
  · simp only [hwd]
    rw [if_neg Bool.false_ne_true]
    by_cases hwl : (s.chat_persona == some s.user_avatar) = true
    · simp only [hwl, if_true]
      obtain ⟨c1, c2, c3, c4⟩ := delete_core_facts
        (⟨removeKey s.personas s.user_avatar, removeKey s.persona_descriptions s.user_avatar, s.default_persona, none, s.user_avatar, s.name1, s.avatars.erase s.user_avatar, s.persona_allow_multi_connections, s.persona_auto_lock, s.selected_group, s.character_avatar⟩ : PersonaState) a ra s.user_avatar hne
        (lookupKey_removeKey_self s.personas s.user_avatar)
        (lookupKey_removeKey_self s.persona_descriptions s.user_avatar)
        (by simpa using hwd) (by simp)
      refine ⟨c1, c2, fun hd => absurd (by simp [hd]) hwd, fun _ => ⟨by trivial, c4⟩⟩
    · simp only [hwl]
      rw [if_neg Bool.false_ne_true]
      obtain ⟨c1, c2, c3, c4⟩ := delete_core_facts
        (⟨removeKey s.personas s.user_avatar, removeKey s.persona_descriptions s.user_avatar, s.default_persona, s.chat_persona, s.user_avatar, s.name1, s.avatars.erase s.user_avatar, s.persona_allow_multi_connections, s.persona_auto_lock, s.selected_group, s.character_avatar⟩ : PersonaState) a ra s.user_avatar hne
        (lookupKey_removeKey_self s.personas s.user_avatar)
        (lookupKey_removeKey_self s.persona_descriptions s.user_avatar)
        (by simpa using hwd) (by simpa using hwl)
      refine ⟨c1, c2, fun hd => absurd (by simp [hd]) hwd,
        fun hcl => absurd (by simp [hcl]) hwl⟩

/-- A state where `p.png` is simultaneously the selected avatar, the default
persona and the chat-locked persona. -/
def deleteWitnessState : PersonaState :=
  { patState with user_avatar := "p.png", default_persona := some "p.png", chat_persona := some "p.png" }

/-- Witness for C7: deleting `p.png` from `deleteWitnessState` removes its name
entry and descriptor, warns about and clears the default (so the `default` lock
query reports false), and warns about and clears the chat lock. -/
theorem C7_delete_persona_witness :
    lookupKey (deleteUserAvatar true true none false deleteWitnessState).state.personas "p.png" = none ∧
    lookupKey (deleteUserAvatar true true none false deleteWitnessState).state.persona_descriptions "p.png" = none ∧
    ((deleteUserAvatar true true none false deleteWitnessState).warnedDefaultDeleted = true ∧
      (deleteUserAvatar true true none false deleteWitnessState).state.default_persona = none ∧
      isPersonaLocked "default" (deleteUserAvatar true true none false deleteWitnessState).state = .ok false) ∧
    ((deleteUserAvatar true true none false deleteWitnessState).warnedLockDeleted = true ∧
      (deleteUserAvatar true true none false deleteWitnessState).state.chat_persona ≠ some "p.png") := by
  obtain ⟨c1, c2, c3, c4⟩ := C7_delete_persona deleteWitnessState none false (by decide)
  exact ⟨c1, c2, c3 rfl, c4 rfl⟩

/-! ## Restore lemmas -/

/-- The persona-merge loop never touches an existing binding. -/
theorem restorePersonasLoop_preserve (al : List String) (ps : List (String × String))
    (s : PersonaState) (ws : List RestoreWarning) (k : String) (v : String)
    (h : lookupKey s.personas k = some v) :
    lookupKey (restorePersonasLoop al ps s ws).1.personas k = some v := by
  induction ps generalizing s ws with
  | nil => simpa [restorePersonasLoop] using h
  | cons kv rest ih =>
    obtain ⟨k0, v0⟩ := kv
    simp only [restorePersonasLoop]
    by_cases h0 : hasKey s.personas k0 = true
    · rw [if_pos h0]
      exact ih _ _ h
    · rw [if_neg h0]
      have hne : k ≠ k0 := by
        intro hh
        subst hh
        exact h0 (by unfold hasKey; rw [h]; rfl)
      have hpres : lookupKey (setKey s.personas k0 v0) k = some v :=
        (lookupKey_setKey_ne s.personas k0 k v0 hne).trans h
      by_cases hc : al.contains k0 = true
      · rw [if_pos hc]
        exact ih _ _ hpres
      · rw [if_neg hc]
        exact ih _ _ hpres

/-- The persona-merge loop keeps every already-bound key bound. -/
theorem restorePersonasLoop_hasKey_mono (al : List String) (ps : List (String × String))
    (s : PersonaState) (ws : List RestoreWarning) (k : String)
    (h : hasKey s.personas k = true) :
    hasKey (restorePersonasLoop al ps s ws).1.personas k = true := by
  unfold hasKey at h ⊢
  cases hl : lookupKey s.personas k with
  | none => rw [hl] at h; simp at h
  | some v => rw [restorePersonasLoop_preserve al ps s ws k v hl]; rfl

/-- After the persona-merge loop, every key of the backup map is bound. -/
theorem restorePersonasLoop_adds (al : List String) (ps : List (String × String))
    (s : PersonaState) (ws : List RestoreWarning) (k : String)
    (hk : k ∈ ps.map Prod.fst) :
    hasKey (restorePersonasLoop al ps s ws).1.personas k = true := by
  induction ps generalizing s ws with
  | nil => simp at hk
  | cons kv rest ih =>
    obtain ⟨k0, v0⟩ := kv
    simp only [List.map_cons, List.mem_cons] at hk
    simp only [restorePersonasLoop]
    by_cases h0 : hasKey s.personas k0 = true
    · rw [if_pos h0]
      rcases hk with rfl | hk
      · exact restorePersonasLoop_hasKey_mono al rest s _ k h0
      · exact ih _ _ hk
    · rw [if_neg h0]
      have hset : hasKey (setKey s.personas k0 v0) k0 = true := by
        unfold hasKey
        rw [lookupKey_setKey_self]
        rfl
      by_cases hc : al.contains k0 = true
      · rw [if_pos hc]
        rcases hk with rfl | hk
        · exact restorePersonasLoop_hasKey_mono al rest _ _ k hset
        · exact ih _ _ hk
      · rw [if_neg hc]
        rcases hk with rfl | hk
        · exact restorePersonasLoop_hasKey_mono al rest _ _ k hset
        · exact ih _ _ hk

/-- The persona-merge loop only appends to the warning list. -/
theorem restorePersonasLoop_warn_mono (al : List String) (ps : List (String × String))
    (s : PersonaState) (ws : List RestoreWarning) (w : RestoreWarning) (h : w ∈ ws) :
    w ∈ (restorePersonasLoop al ps s ws).2 := by
  induction ps generalizing s ws with
  | nil => simpa [restorePersonasLoop] using h
  | cons kv rest ih =>
    obtain ⟨k0, v0⟩ := kv
    simp only [restorePersonasLoop]
    by_cases h0 : hasKey s.personas k0 = true
    · rw [if_pos h0]
      exact ih _ _ (by simp [h])
    · rw [if_neg h0]
      by_cases hc : al.contains k0 = true
      · rw [if_pos hc]
        exact ih _ _ h
      · rw [if_neg hc]
        exact ih _ _ (by simp [h])

/-- A backup persona key that is already bound gets a `personaExists` warning. -/
theorem restorePersonasLoop_warn_exists (al : List String) (ps : List (String × String))
    (s : PersonaState) (ws : List RestoreWarning) (k : String)
    (hk : k ∈ ps.map Prod.fst) (he : hasKey s.personas k = true) :
    RestoreWarning.personaExists k ∈ (restorePersonasLoop al ps s ws).2 := by
  induction ps generalizing s ws with
  | nil => simp at hk
  | cons kv rest ih =>
    obtain ⟨k0, v0⟩ := kv
    simp only [List.map_cons, List.mem_cons] at hk
    simp only [restorePersonasLoop]
    by_cases h0 : hasKey s.personas k0 = true
    · rw [if_pos h0]
      rcases hk with rfl | hk
      · exact restorePersonasLoop_warn_mono al rest s _ _ (by simp)
      · exact ih _ _ hk he
    · rw [if_neg h0]
      have hne : k ≠ k0 := by
        intro hh
        subst hh
        exact h0 he
      have he' : hasKey (setKey s.personas k0 v0) k = true := by
        unfold hasKey at he ⊢
        rw [lookupKey_setKey_ne s.personas k0 k v0 hne]
        exact he
      by_cases hc : al.contains k0 = true
      · rw [if_pos hc]
        rcases hk with rfl | hk
        · exact absurd he h0
        · exact ih _ _ hk he'
      · rw [if_neg hc]
        rcases hk with rfl | hk
        · exact absurd he h0
        · exact ih _ _ hk he'

/-- When every backup persona key is already bound, the persona-merge loop
changes nothing and reports each key as existing. -/
theorem restorePersonasLoop_allExists (al : List String) (ps : List (String × String))
    (s : PersonaState) (ws : List RestoreWarning)
    (h : ∀ p ∈ ps, hasKey s.personas p.1 = true) :
    restorePersonasLoop al ps s ws =
      (s, ws ++ ps.map (fun p => RestoreWarning.personaExists p.1)) := by
  induction ps generalizing ws with
  | nil => simp [restorePersonasLoop]
  | cons kv rest ih =>
    obtain ⟨k0, v0⟩ := kv
    have h0 : hasKey s.personas k0 = true := h (k0, v0) (by simp)
    simp only [restorePersonasLoop]
    rw [if_pos h0, ih _ (fun p hp => h p (by simp [hp]))]
    simp

/-- The persona-merge loop leaves the descriptor store, the default persona
and the chat lock untouched. -/
theorem restorePersonasLoop_frame (al : List String) (ps : List (String × String))
    (s : PersonaState) (ws : List RestoreWarning) :
    (restorePersonasLoop al ps s ws).1.persona_descriptions = s.persona_descriptions ∧
    (restorePersonasLoop al ps s ws).1.default_persona = s.default_persona := by
  induction ps generalizing s ws with
  | nil => exact ⟨rfl, rfl⟩
  | cons kv rest ih =>
    obtain ⟨k0, v0⟩ := kv
    simp only [restorePersonasLoop]
    by_cases h0 : hasKey s.personas k0 = true
    · rw [if_pos h0]
      exact ih _ _
    · rw [if_neg h0]
      by_cases hc : al.contains k0 = true
      · rw [if_pos hc]
        exact ih _ _
      · rw [if_neg hc]
        exact ih _ _

/-- The description-merge loop never touches an existing binding. -/
theorem restoreDescriptionsLoop_preserve (ds : List (String × PersonaDescription))
    (s : PersonaState) (ws : List RestoreWarning) (k : String) (v : PersonaDescription)
    (h : lookupKey s.persona_descriptions k = some v) :
    lookupKey (restoreDescriptionsLoop ds s ws).1.persona_descriptions k = some v := by
  induction ds generalizing s ws with
  | nil => exact h
  | cons kv rest ih =>
    obtain ⟨k0, v0⟩ := kv
    simp only [restoreDescriptionsLoop]
    by_cases h0 : hasKey s.persona_descriptions k0 = true
    · rw [if_pos h0]
      exact ih _ _ h
    · rw [if_neg h0]
      by_cases ht : (!jsTruthy (lookupKey s.personas k0)) = true
      · rw [if_pos ht]
        exact ih _ _ h
      · rw [if_neg ht]
        have hne : k ≠ k0 := by
          intro hh
          subst hh
          exact h0 (by unfold hasKey; rw [h]; rfl)
        exact ih _ _ ((lookupKey_setKey_ne s.persona_descriptions k0 k v0 hne).trans h)

/-- The description-merge loop keeps every already-bound key bound. -/
theorem restoreDescriptionsLoop_hasKey_mono (ds : List (String × PersonaDescription))
    (s : PersonaState) (ws : List RestoreWarning) (k : String)
    (h : hasKey s.persona_descriptions k = true) :
    hasKey (restoreDescriptionsLoop ds s ws).1.persona_descriptions k = true := by
  unfold hasKey at h ⊢
  cases hl : lookupKey s.persona_descriptions k with
  | none => rw [hl] at h; simp at h
  | some v => rw [restoreDescriptionsLoop_preserve ds s ws k v hl]; rfl

/-- The description-merge loop only appends to the warning list. -/
theorem restoreDescriptionsLoop_warn_mono (ds : List (String × PersonaDescription))
    (s : PersonaState) (ws : List RestoreWarning) (w : RestoreWarning) (h : w ∈ ws) :
    w ∈ (restoreDescriptionsLoop ds s ws).2 := by
  induction ds generalizing s ws with
  | nil => exact h
  | cons kv rest ih =>
    obtain ⟨k0, v0⟩ := kv
    simp only [restoreDescriptionsLoop]
    by_cases h0 : hasKey s.persona_descriptions k0 = true
    · rw [if_pos h0]
      exact ih _ _ (by simp [h])
    · rw [if_neg h0]
      by_cases ht : (!jsTruthy (lookupKey s.personas k0)) = true
      · rw [if_pos ht]
        exact ih _ _ (by simp [h])
      · rw [if_neg ht]
        exact ih _ _ h

/-- A backup description key that is already bound gets a
`descriptionExists` warning. -/
theorem restoreDescriptionsLoop_warn_exists (ds : List (String × PersonaDescription))
    (s : PersonaState) (ws : List RestoreWarning) (k : String)
    (hk : k ∈ ds.map Prod.fst) (he : hasKey s.persona_descriptions k = true) :
    RestoreWarning.descriptionExists k ∈ (restoreDescriptionsLoop ds s ws).2 := by
  induction ds generalizing s ws with
  | nil => simp at hk
  | cons kv rest ih =>
    obtain ⟨k0, v0⟩ := kv
    simp only [List.map_cons, List.mem_cons] at hk
    simp only [restoreDescriptionsLoop]
    by_cases h0 : hasKey s.persona_descriptions k0 = true
    · rw [if_pos h0]
      rcases hk with rfl | hk
      · exact restoreDescriptionsLoop_warn_mono rest s _ _ (by simp)
      · exact ih _ _ hk he
    · rw [if_neg h0]
      have hne' : k ∈ rest.map Prod.fst → hasKey (setKey s.persona_descriptions k0 v0) k = true := by
        intro hk'
        have hne : k ≠ k0 := by
          intro hh
          subst hh
          exact h0 he
        unfold hasKey at he ⊢
        rw [lookupKey_setKey_ne s.persona_descriptions k0 k v0 hne]
        exact he
      by_cases ht : (!jsTruthy (lookupKey s.personas k0)) = true
      · rw [if_pos ht]
        rcases hk with rfl | hk
        · exact absurd he h0
        · exact ih _ _ hk he
      · rw [if_neg ht]
        rcases hk with rfl | hk
        · exact absurd he h0
        · exact ih _ _ hk (hne' hk)

/-- The description-merge loop leaves the persona store, the default
persona and the avatar list untouched. -/
theorem restoreDescriptionsLoop_frame (ds : List (String × PersonaDescription))
    (s : PersonaState) (ws : List RestoreWarning) :
    (restoreDescriptionsLoop ds s ws).1.personas = s.personas ∧
    (restoreDescriptionsLoop ds s ws).1.default_persona = s.default_persona := by
  induction ds generalizing s ws with
  | nil => exact ⟨rfl, rfl⟩
  | cons kv rest ih =>
    obtain ⟨k0, v0⟩ := kv
    simp only [restoreDescriptionsLoop]
    by_cases h0 : hasKey s.persona_descriptions k0 = true
    · rw [if_pos h0]
      exact ih _ _
    · rw [if_neg h0]
      by_cases ht : (!jsTruthy (lookupKey s.personas k0)) = true
      · rw [if_pos ht]
        exact ih _ _
      · rw [if_neg ht]
        exact ih _ _

/-- After the description-merge loop, every backup description key either
is bound in the descriptor store or has a falsy persona name. -/
theorem restoreDescriptionsLoop_post (ds : List (String × PersonaDescription))
    (s : PersonaState) (ws : List RestoreWarning) :
    ∀ p ∈ ds, hasKey (restoreDescriptionsLoop ds s ws).1.persona_descriptions p.1 = true ∨
      jsTruthy (lookupKey (restoreDescriptionsLoop ds s ws).1.personas p.1) = false := by
  induction ds generalizing s ws with
  | nil => intro p hp; simp at hp
  | cons kv rest ih =>
    obtain ⟨k0, v0⟩ := kv
    intro p hp
    simp only [restoreDescriptionsLoop]
    by_cases h0 : hasKey s.persona_descriptions k0 = true
    · rw [if_pos h0]
      rcases List.mem_cons.mp hp with hpe | hp'
      · subst hpe
        exact Or.inl (restoreDescriptionsLoop_hasKey_mono rest s _ k0 h0)
      · exact ih _ _ p hp'
    · rw [if_neg h0]
      by_cases ht : (!jsTruthy (lookupKey s.personas k0)) = true
      · rw [if_pos ht]
        rcases List.mem_cons.mp hp with hpe | hp'
        · subst hpe
          right
          rw [(restoreDescriptionsLoop_frame rest s _).1]
          simpa using ht
        · exact ih _ _ p hp'
      · rw [if_neg ht]
        rcases List.mem_cons.mp hp with hpe | hp'
        · subst hpe
          left
          exact restoreDescriptionsLoop_hasKey_mono rest _ _ k0
            (by unfold hasKey; rw [lookupKey_setKey_self]; rfl)
        · exact ih _ _ p hp'

/-- When every backup description key is bound or has a falsy persona name,
the description-merge loop changes nothing. -/
theorem restoreDescriptionsLoop_stable (ds : List (String × PersonaDescription))
    (s : PersonaState) (ws : List RestoreWarning)
    (h : ∀ p ∈ ds, hasKey s.persona_descriptions p.1 = true ∨
      jsTruthy (lookupKey s.personas p.1) = false) :
    (restoreDescriptionsLoop ds s ws).1 = s := by
  induction ds generalizing ws with
  | nil => rfl
  | cons kv rest ih =>
    obtain ⟨k0, v0⟩ := kv
    simp only [restoreDescriptionsLoop]
    rcases h (k0, v0) (by simp) with h0 | h0
    · rw [if_pos h0]
      exact ih _ (fun p hp => h p (List.mem_cons_of_mem _ hp))
    · by_cases hd : hasKey s.persona_descriptions k0 = true
      · rw [if_pos hd]
        exact ih _ (fun p hp => h p (List.mem_cons_of_mem _ hp))
      · rw [if_neg hd, if_pos (by rw [h0]; rfl)]
        exact ih _ (fun p hp => h p (List.mem_cons_of_mem _ hp))

/-- Setting the default persona to the value it already has is a no-op. -/
theorem PersonaState_set_default_eq (s : PersonaState) (d : Option String)
    (h : s.default_persona = d) :
    { s with default_persona := d } = s := by
  cases s
  simp only [] at h
  rw [h]

/-- The default-persona step leaves both stores untouched. -/
theorem restoreDefault_frame (b : PersonaBackup) (s : PersonaState) (ws : List RestoreWarning) :
    (restoreDefault b s ws).1.personas = s.personas ∧
    (restoreDefault b s ws).1.persona_descriptions = s.persona_descriptions := by
  unfold restoreDefault
  cases b.default_persona with
  | none => exact ⟨rfl, rfl⟩
  | some d =>
    simp only []
    by_cases h1 : d = ""
    · rw [if_pos h1]
      exact ⟨rfl, rfl⟩
    · rw [if_neg h1]
      by_cases h2 : hasKey s.personas d = true
      · rw [if_pos h2]
        exact ⟨rfl, rfl⟩
      · rw [if_neg h2]
        exact ⟨rfl, rfl⟩

/-- The default-persona step only appends to the warning list. -/
theorem restoreDefault_warn_mono (b : PersonaBackup) (s : PersonaState)
    (ws : List RestoreWarning) (w : RestoreWarning) (h : w ∈ ws) :
    w ∈ (restoreDefault b s ws).2 := by
  unfold restoreDefault
  cases b.default_persona with
  | none => exact h
  | some d =>
    simp only []
    by_cases h1 : d = ""
    · rw [if_pos h1]
      exact h
    · rw [if_neg h1]
      by_cases h2 : hasKey s.personas d = true
      · rw [if_pos h2]
        exact h
      · rw [if_neg h2]
        simp [h]

/-- A truthy backup default whose key exists is applied. -/
theorem restoreDefault_sets (b : PersonaBackup) (s : PersonaState) (ws : List RestoreWarning)
    (d : String) (hb : b.default_persona = some d) (hd : ¬d = "")
    (hk : hasKey s.personas d = true) :
    (restoreDefault b s ws).1.default_persona = some d := by
  unfold restoreDefault
  rw [hb]
  simp only []
  rw [if_neg hd, if_pos hk]

/-- The default-persona step is the identity on the state when any
applicable backup default is already the current default. -/
theorem restoreDefault_stable (b : PersonaBackup) (s : PersonaState) (ws : List RestoreWarning)
    (h : ∀ d, b.default_persona = some d → ¬d = "" → hasKey s.personas d = true →
      s.default_persona = some d) :
    (restoreDefault b s ws).1 = s := by
  unfold restoreDefault
  cases hb : b.default_persona with
  | none => rfl
  | some d =>
    simp only []
    by_cases h1 : d = ""
    · rw [if_pos h1]
    · rw [if_neg h1]
      by_cases h2 : hasKey s.personas d = true
      · rw [if_pos h2]
        exact PersonaState_set_default_eq s (some d) (h d hb h1 h2)
      · rw [if_neg h2]

/-- A full restore never touches an existing persona binding. -/
theorem onPersonasRestore_preserve_persona (b : PersonaBackup) (t : PersonaState)
    (k : String) (v : String) (h : lookupKey t.personas k = some v) :
    lookupKey (onPersonasRestore b t).1.personas k = some v := by
  unfold onPersonasRestore
  simp only []
  rw [(restoreDefault_frame b _ _).1, (restoreDescriptionsLoop_frame _ _ _).1]
  exact restorePersonasLoop_preserve t.avatars b.personas t [] k v h

/-- A full restore never touches an existing descriptor binding. -/
theorem onPersonasRestore_preserve_desc (b : PersonaBackup) (t : PersonaState)
    (k : String) (v : PersonaDescription) (h : lookupKey t.persona_descriptions k = some v) :
    lookupKey (onPersonasRestore b t).1.persona_descriptions k = some v := by
  unfold onPersonasRestore
  simp only []
  rw [(restoreDefault_frame b _ _).2]
  refine restoreDescriptionsLoop_preserve _ _ _ k v ?_
  rw [(restorePersonasLoop_frame t.avatars b.personas t []).1]
  exact h

/-- A restore reports every backup persona key that is already bound. -/
theorem onPersonasRestore_warn_exists (b : PersonaBackup) (t : PersonaState) (k : String)
    (hk : k ∈ b.personas.map Prod.fst) (he : hasKey t.personas k = true) :
    RestoreWarning.personaExists k ∈ (onPersonasRestore b t).2 := by
  unfold onPersonasRestore
  simp only []
  exact restoreDefault_warn_mono _ _ _ _
    (restoreDescriptionsLoop_warn_mono _ _ _ _
      (restorePersonasLoop_warn_exists t.avatars b.personas t [] k hk he))

/-- A restore reports every backup description key that is already bound. -/
theorem onPersonasRestore_warn_descExists (b : PersonaBackup) (t : PersonaState) (k : String)
    (hk : k ∈ b.persona_descriptions.map Prod.fst)
    (he : hasKey t.persona_descriptions k = true) :
    RestoreWarning.descriptionExists k ∈ (onPersonasRestore b t).2 := by
  unfold onPersonasRestore
  simp only []
  refine restoreDefault_warn_mono _ _ _ _
    (restoreDescriptionsLoop_warn_exists _ _ _ k hk ?_)
  unfold hasKey at he ⊢
  rw [(restorePersonasLoop_frame t.avatars b.personas t []).1]
  exact he

/-- The state after one restore absorbs the same backup: every backup
persona key is bound, every backup description key is bound or has a falsy
persona name, and any applicable backup default is already in force. -/
theorem onPersonasRestore_post (b : PersonaBackup) (s : PersonaState) :
    (∀ k ∈ b.personas.map Prod.fst, hasKey (onPersonasRestore b s).1.personas k = true) ∧
    (∀ p ∈ b.persona_descriptions,
      hasKey (onPersonasRestore b s).1.persona_descriptions p.1 = true ∨
      jsTruthy (lookupKey (onPersonasRestore b s).1.personas p.1) = false) ∧
    (∀ d, b.default_persona = some d → ¬d = "" →
      hasKey (onPersonasRestore b s).1.personas d = true →
      (onPersonasRestore b s).1.default_persona = some d) := by
  unfold onPersonasRestore
  simp only []
  refine ⟨?_, ?_, ?_⟩
  · intro k hk
    unfold hasKey
    rw [(restoreDefault_frame b _ _).1, (restoreDescriptionsLoop_frame _ _ _).1]
    have := restorePersonasLoop_adds s.avatars b.personas s [] k hk
    unfold hasKey at this
    exact this
  · intro p hp
    rcases restoreDescriptionsLoop_post b.persona_descriptions
        (restorePersonasLoop s.avatars b.personas s []).1
        (restorePersonasLoop s.avatars b.personas s []).2 p hp with h | h
    · exact Or.inl (by unfold hasKey at h ⊢; rw [(restoreDefault_frame b _ _).2]; exact h)
    · exact Or.inr (by rw [(restoreDefault_frame b _ _).1]; exact h)
  · intro d hb hd hk
    unfold hasKey at hk
    rw [(restoreDefault_frame b _ _).1] at hk
    exact restoreDefault_sets b _ _ d hb hd hk

/-- A restore is the identity on a state that already absorbs the backup. -/
theorem onPersonasRestore_stable (b : PersonaBackup) (t : PersonaState)
    (f1 : ∀ k ∈ b.personas.map Prod.fst, hasKey t.personas k = true)
    (f2 : ∀ p ∈ b.persona_descriptions, hasKey t.persona_descriptions p.1 = true ∨
      jsTruthy (lookupKey t.personas p.1) = false)
    (f3 : ∀ d, b.default_persona = some d → ¬d = "" → hasKey t.personas d = true →
      t.default_persona = some d) :
    (onPersonasRestore b t).1 = t := by
  unfold onPersonasRestore
  simp only []
  rw [restorePersonasLoop_allExists t.avatars b.personas t []
    (fun p hp => f1 p.1 (List.mem_map_of_mem Prod.fst hp))]
  rw [restoreDescriptionsLoop_stable b.persona_descriptions t _ f2]
  exact restoreDefault_stable b t _ f3

/-- Restoring the same backup a second time leaves the state unchanged. -/
theorem onPersonasRestore_idem (b : PersonaBackup) (s : PersonaState) :
    (onPersonasRestore b (onPersonasRestore b s).1).1 = (onPersonasRestore b s).1 := by
  obtain ⟨f1, f2, f3⟩ := onPersonasRestore_post b s
  exact onPersonasRestore_stable b _ f1 f2 f3

/-- Every backup persona entry is merged unless its key already exists, in
which case a `personaExists` warning is pushed. -/
theorem restorePersonasLoop_merged (al : List String) (ps : List (String × String))
    (s : PersonaState) (ws : List RestoreWarning) :
    ∀ p ∈ ps, RestoreWarning.personaExists p.1 ∈ (restorePersonasLoop al ps s ws).2 ∨
      lookupKey (restorePersonasLoop al ps s ws).1.personas p.1 = some p.2 := by
  induction ps generalizing s ws with
  | nil => intro p hp; simp at hp
  | cons kv rest ih =>
    obtain ⟨k0, v0⟩ := kv
    intro p hp
    simp only [restorePersonasLoop]
    by_cases h0 : hasKey s.personas k0 = true
    · rw [if_pos h0]
      rcases List.mem_cons.mp hp with hpe | hp'
      · subst hpe
        exact Or.inl (restorePersonasLoop_warn_mono al rest s _ _ (by simp))
      · exact ih _ _ p hp'
    · rw [if_neg h0]
      by_cases hc : al.contains k0 = true
      · rw [if_pos hc]
        rcases List.mem_cons.mp hp with hpe | hp'
        · subst hpe
          exact Or.inr (restorePersonasLoop_preserve al rest _ _ k0 v0
            (lookupKey_setKey_self s.personas k0 v0))
        · exact ih _ _ p hp'
      · rw [if_neg hc]
        rcases List.mem_cons.mp hp with hpe | hp'
        · subst hpe
          exact Or.inr (restorePersonasLoop_preserve al rest _ _ k0 v0
            (lookupKey_setKey_self s.personas k0 v0))
        · exact ih _ _ p hp'

/-- Every backup description entry is merged unless warned about: existing
key (`descriptionExists`) or absent/unnamed persona (`personaMissing`). -/
theorem restoreDescriptionsLoop_merged (ds : List (String × PersonaDescription))
    (s : PersonaState) (ws : List RestoreWarning) :
    ∀ p ∈ ds, RestoreWarning.descriptionExists p.1 ∈ (restoreDescriptionsLoop ds s ws).2 ∨
      RestoreWarning.personaMissing p.1 ∈ (restoreDescriptionsLoop ds s ws).2 ∨
      lookupKey (restoreDescriptionsLoop ds s ws).1.persona_descriptions p.1 = some p.2 := by
  induction ds generalizing s ws with
  | nil => intro p hp; simp at hp
  | cons kv rest ih =>
    obtain ⟨k0, v0⟩ := kv
    intro p hp
    simp only [restoreDescriptionsLoop]
    by_cases h0 : hasKey s.persona_descriptions k0 = true
    · rw [if_pos h0]
      rcases List.mem_cons.mp hp with hpe | hp'
      · subst hpe
        exact Or.inl (restoreDescriptionsLoop_warn_mono rest s _ _ (by simp))
      · exact ih _ _ p hp'
    · rw [if_neg h0]
      by_cases ht : (!jsTruthy (lookupKey s.personas k0)) = true
      · rw [if_pos ht]
        rcases List.mem_cons.mp hp with hpe | hp'
        · subst hpe
          exact Or.inr (Or.inl (restoreDescriptionsLoop_warn_mono rest s _ _ (by simp)))
        · exact ih _ _ p hp'
      · rw [if_neg ht]
        rcases List.mem_cons.mp hp with hpe | hp'
        · subst hpe
          exact Or.inr (Or.inr (restoreDescriptionsLoop_preserve rest _ _ k0 v0
            (lookupKey_setKey_self s.persona_descriptions k0 v0)))
        · exact ih _ _ p hp'

/-- A truthy backup default whose key is absent gets a `defaultMissing`
warning. -/
theorem restoreDefault_warn_missing (b : PersonaBackup) (s : PersonaState)
    (ws : List RestoreWarning) (d : String) (hb : b.default_persona = some d)
    (hd : ¬d = "") (hk : hasKey s.personas d = false) :
    RestoreWarning.defaultMissing d ∈ (restoreDefault b s ws).2 := by
  unfold restoreDefault
  rw [hb]
  simp only []
  rw [if_neg hd, if_neg (by rw [hk]; exact Bool.false_ne_true)]
  simp

/-- A falsy backup default (absent or the empty string) leaves the state
untouched. -/
theorem restoreDefault_falsy (b : PersonaBackup) (s : PersonaState) (ws : List RestoreWarning)
    (h : b.default_persona = none ∨ b.default_persona = some "") :
    (restoreDefault b s ws).1 = s := by
  unfold restoreDefault
  rcases h with h | h
  · rw [h]
  · rw [h]
    simp only []
    rw [if_pos trivial]

/-- A restore merges every backup persona entry or warns that it exists. -/
theorem onPersonasRestore_merge_persona (b : PersonaBackup) (s : PersonaState) :
    ∀ p ∈ b.personas, RestoreWarning.personaExists p.1 ∈ (onPersonasRestore b s).2 ∨
      lookupKey (onPersonasRestore b s).1.personas p.1 = some p.2 := by
  unfold onPersonasRestore
  simp only []
  intro p hp
  rcases restorePersonasLoop_merged s.avatars b.personas s [] p hp with h | h
  · exact Or.inl (restoreDefault_warn_mono _ _ _ _
      (restoreDescriptionsLoop_warn_mono _ _ _ _ h))
  · refine Or.inr ?_
    rw [(restoreDefault_frame b _ _).1, (restoreDescriptionsLoop_frame _ _ _).1]
    exact h

/-- A restore merges every backup description entry or warns why it was
skipped. -/
theorem onPersonasRestore_merge_desc (b : PersonaBackup) (s : PersonaState) :
    ∀ p ∈ b.persona_descriptions,
      RestoreWarning.descriptionExists p.1 ∈ (onPersonasRestore b s).2 ∨
      RestoreWarning.personaMissing p.1 ∈ (onPersonasRestore b s).2 ∨
      lookupKey (onPersonasRestore b s).1.persona_descriptions p.1 = some p.2 := by
  unfold onPersonasRestore
  simp only []
  intro p hp
  rcases restoreDescriptionsLoop_merged b.persona_descriptions _ _ p hp with h | h | h
  · exact Or.inl (restoreDefault_warn_mono _ _ _ _ h)
  · exact Or.inr (Or.inl (restoreDefault_warn_mono _ _ _ _ h))
  · refine Or.inr (Or.inr ?_)
    rw [(restoreDefault_frame b _ _).2]
    exact h

/-- A restore warns about a truthy backup default whose key is still absent
after the merge. -/
theorem onPersonasRestore_default_missing (b : PersonaBackup) (s : PersonaState) (d : String)
    (hb : b.default_persona = some d) (hd : ¬d = "")
    (hk : hasKey (onPersonasRestore b s).1.personas d = false) :
    RestoreWarning.defaultMissing d ∈ (onPersonasRestore b s).2 := by
  unfold onPersonasRestore at hk ⊢
  simp only [] at hk ⊢
  unfold hasKey at hk
  rw [(restoreDefault_frame b _ _).1] at hk
  exact restoreDefault_warn_missing b _ _ d hb hd hk

/-- A restore with a falsy backup default leaves the default persona
untouched. -/
theorem onPersonasRestore_default_falsy (b : PersonaBackup) (s : PersonaState)
    (h : b.default_persona = none ∨ b.default_persona = some "") :
    (onPersonasRestore b s).1.default_persona = s.default_persona := by
  unfold onPersonasRestore
  simp only []
  rw [restoreDefault_falsy b _ _ h, (restoreDescriptionsLoop_frame _ _ _).2,
    (restorePersonasLoop_frame s.avatars b.personas s []).2]

/-- C4 (amended): a restore merges the persona and description stores
without overwriting any existing binding; the backup's truthy default is
applied whenever its key exists in the merged persona store — overwriting
any existing default — and warned about otherwise, while a falsy backup
default leaves the default unchanged; every skipped key is warned about
(already-existing persona, already-existing description, description with
an absent or unnamed persona, missing default).  Restoring the same
backup a second time leaves the state unchanged and reports every backup
persona key as already existing.  (The literal claims that the default
merge never overwrites and that the second restore reports *every* key as
already existing are refuted by `C4_restore_counterexample`.) -/
theorem C4_restore (b : PersonaBackup) (s : PersonaState) :
    (∀ k v, lookupKey s.personas k = some v →
      lookupKey (onPersonasRestore b s).1.personas k = some v) ∧
    (∀ k v, lookupKey s.persona_descriptions k = some v →
      lookupKey (onPersonasRestore b s).1.persona_descriptions k = some v) ∧
    (∀ k ∈ b.personas.map Prod.fst, hasKey s.personas k = true →
      RestoreWarning.personaExists k ∈ (onPersonasRestore b s).2) ∧
    (∀ k ∈ b.persona_descriptions.map Prod.fst, hasKey s.persona_descriptions k = true →
      RestoreWarning.descriptionExists k ∈ (onPersonasRestore b s).2) ∧
    (∀ p ∈ b.personas, RestoreWarning.personaExists p.1 ∈ (onPersonasRestore b s).2 ∨
      lookupKey (onPersonasRestore b s).1.personas p.1 = some p.2) ∧
    (∀ p ∈ b.persona_descriptions,
      RestoreWarning.descriptionExists p.1 ∈ (onPersonasRestore b s).2 ∨
      RestoreWarning.personaMissing p.1 ∈ (onPersonasRestore b s).2 ∨
      lookupKey (onPersonasRestore b s).1.persona_descriptions p.1 = some p.2) ∧
    (∀ d, b.default_persona = some d → ¬d = "" →
      hasKey (onPersonasRestore b s).1.personas d = true →
      (onPersonasRestore b s).1.default_persona = some d) ∧
    (∀ d, b.default_persona = some d → ¬d = "" →
      hasKey (onPersonasRestore b s).1.personas d = false →
      RestoreWarning.defaultMissing d ∈ (onPersonasRestore b s).2) ∧
    (b.default_persona = none ∨ b.default_persona = some "" →
      (onPersonasRestore b s).1.default_persona = s.default_persona) ∧
    (onPersonasRestore b (onPersonasRestore b s).1).1 = (onPersonasRestore b s).1 ∧
    (∀ k ∈ b.personas.map Prod.fst,
      RestoreWarning.personaExists k ∈ (onPersonasRestore b (onPersonasRestore b s).1).2) := by
  refine ⟨fun k v h => onPersonasRestore_preserve_persona b s k v h,
    fun k v h => onPersonasRestore_preserve_desc b s k v h,
    fun k hk he => onPersonasRestore_warn_exists b s k hk he,
    fun k hk he => onPersonasRestore_warn_descExists b s k hk he,
    onPersonasRestore_merge_persona b s,
    onPersonasRestore_merge_desc b s,
    (onPersonasRestore_post b s).2.2,
    fun d hb hd hk => onPersonasRestore_default_missing b s d hb hd hk,
    fun h => onPersonasRestore_default_falsy b s h,
    onPersonasRestore_idem b s,
    fun k hk => onPersonasRestore_warn_exists b _ k hk ((onPersonasRestore_post b s).1 k hk)⟩

/-- A backup holding only a descriptor for `k.png`, a key with no persona
entry anywhere. -/
def c4Backup : PersonaBackup :=
  { personas := [], persona_descriptions := [("k.png", patDescriptor)], default_persona := none }

/-- A state whose default persona is the existing `p.png` (the avatar file
for `n.png` is already on the server, so its upload path is not taken). -/
def c4OverwriteState : PersonaState := { patState with default_persona := some "p.png", avatars := ["p.png", "n.png"] }

/-- A backup bringing a new persona `n.png` and naming it the default. -/
def c4OverwriteBackup : PersonaBackup :=
  { personas := [("n.png", "New")], persona_descriptions := [], default_persona := some "n.png" }

/-- Counterexample for C4 as stated, in two parts.  First: restoring
`c4Backup` twice on the empty state leaves the state unchanged, but the
second restore reports its only key, the description key `k.png`, as
*missing* again (`Persona for "k.png" does not exist, skipping`), not as
already existing.  Second: restoring `c4OverwriteBackup` on a state whose
default persona is `p.png` silently *overwrites* the existing default with
`n.png` — the default merge is not a no-overwrite merge and emits no
warning. -/
theorem C4_restore_counterexample :
    ("k.png" ∈ c4Backup.persona_descriptions.map Prod.fst ∧
      (onPersonasRestore c4Backup baseState).2 = [RestoreWarning.personaMissing "k.png"] ∧
      (onPersonasRestore c4Backup (onPersonasRestore c4Backup baseState).1).2 =
        [RestoreWarning.personaMissing "k.png"] ∧
      RestoreWarning.descriptionExists "k.png" ∉
        (onPersonasRestore c4Backup (onPersonasRestore c4Backup baseState).1).2) ∧
    (c4OverwriteState.default_persona = some "p.png" ∧
      (onPersonasRestore c4OverwriteBackup c4OverwriteState).1.default_persona = some "n.png" ∧
      (onPersonasRestore c4OverwriteBackup c4OverwriteState).2 = []) := by
  exact ⟨⟨by decide, rfl, rfl, by decide⟩, rfl, rfl, rfl⟩

/-- A backup overlapping `patState` on `p.png`, adding `n.png` with a
descriptor, and making `n.png` the default. -/
def c4WitnessBackup : PersonaBackup :=
  { personas := [("p.png", "Patty"), ("n.png", "New")], persona_descriptions := [("p.png", emptiedDescriptor), ("n.png", patDescriptor)], default_persona := some "n.png" }

/-- Witness for C4 on `patState`: the existing binding of `p.png` survives
both stores, both skips of `p.png` are warned about, the new entries for
`n.png` are merged into both stores, the backup default `n.png` is
applied, the second restore changes nothing and reports both backup
persona keys as existing. -/
theorem C4_restore_witness :
    lookupKey (onPersonasRestore c4WitnessBackup patState).1.personas "p.png" = some "Pat" ∧
    lookupKey (onPersonasRestore c4WitnessBackup patState).1.persona_descriptions "p.png" =
      some patDescriptor ∧
    RestoreWarning.personaExists "p.png" ∈ (onPersonasRestore c4WitnessBackup patState).2 ∧
    RestoreWarning.descriptionExists "p.png" ∈ (onPersonasRestore c4WitnessBackup patState).2 ∧
    (RestoreWarning.personaExists "n.png" ∈ (onPersonasRestore c4WitnessBackup patState).2 ∨
      lookupKey (onPersonasRestore c4WitnessBackup patState).1.personas "n.png" = some "New") ∧
    (RestoreWarning.descriptionExists "n.png" ∈ (onPersonasRestore c4WitnessBackup patState).2 ∨
      RestoreWarning.personaMissing "n.png" ∈ (onPersonasRestore c4WitnessBackup patState).2 ∨
      lookupKey (onPersonasRestore c4WitnessBackup patState).1.persona_descriptions "n.png" =
        some patDescriptor) ∧
    (onPersonasRestore c4WitnessBackup patState).1.default_persona = some "n.png" ∧
    (onPersonasRestore c4WitnessBackup (onPersonasRestore c4WitnessBackup patState).1).1 =
      (onPersonasRestore c4WitnessBackup patState).1 ∧
    RestoreWarning.personaExists "n.png" ∈
      (onPersonasRestore c4WitnessBackup (onPersonasRestore c4WitnessBackup patState).1).2 := by
  obtain ⟨p1, p2, p3, p4, p5, p6, p7, p8, p9, p10, p11⟩ := C4_restore c4WitnessBackup patState
  exact ⟨p1 "p.png" "Pat" (by decide), p2 "p.png" patDescriptor (by simp [patState, lookupKey]),
    p3 "p.png" (by decide) (by decide), p4 "p.png" (by decide) (by simp [hasKey, patState, lookupKey]),
    p5 ("n.png", "New") (by decide), p6 ("n.png", patDescriptor) (by simp [c4WitnessBackup]),
    p7 "n.png" rfl (by decide) (by decide), p10, p11 "n.png" (by decide)⟩
